import Mathlib

/-!
# WB-Toolbox `SetMotorParameters` block: embedding and verified properties

Source: `toolbox/src/SetMotorParameters.cpp`, `toolbox/include/SetMotorParameters.h`.

Modelling conventions.

* A C++ `double` is a value of a type `V` with decidable equality, a zero (the
  value of a default-constructed field) and a test `isNaN`.  The block only
  copies doubles and compares them with `!=`; it performs no arithmetic.  The
  comparison `a != b` is `doubleNe a b`: it is true when either operand is NaN
  or the two values differ.  The values `+0.0` and `-0.0`, which `!=` does not
  tell apart, are one value of `V`.
* `std::vector<T>` is `List T`.  An access outside the bounds of a vector is
  undefined behaviour and is modelled by the result `none`.
* `unsigned` loop counters are natural numbers; a loop `for (m = 0; m < dofs; ++m)`
  is a recursive function whose first argument is the number `dofs - m` of
  iterations that remain.
* Log output (`wbtError`) has no effect on the block or the device and is omitted.
* Every call a phase makes on the robot interface or on a device interface is
  recorded, in order and with its outcome, in the `calls` field of the result.
-/

namespace wbt

/-! ## Doubles -/

/-- The doubles of `V` that are NaN. -/
class HasNaN (V : Type) where
  isNaN : V → Bool

/-- The comparison `a != b` of two doubles: true when either operand is NaN or the two
values differ. -/
def doubleNe {V : Type} [DecidableEq V] [HasNaN V] (a b : V) : Bool :=
  HasNaN.isNaN a || HasNaN.isNaN b || decide (a ≠ b)

/-! ## External collaborators -/

/-- Modelled from the spec: the per-joint PID gain record (`yarp::dev::Pid`, declared outside
these sources) with its proportional, derivative and integral gains, and the further fields
of the class, which the block copies and never inspects. -/
structure Pid (V : Type) where
  kp : V
  kd : V
  ki : V
  max_int : V
  scale : V
  max_output : V
  offset : V
  stiction_up_val : V
  stiction_down_val : V
  kff : V
deriving DecidableEq, Repr

/-- Modelled from the spec: the per-joint motor torque parameters (`yarp::dev::MotorTorqueParameters`,
declared outside these sources) with the back-EMF constant, the torque constant and their
scales. -/
structure MotorTorqueParameters (V : Type) where
  bemf : V
  bemf_scale : V
  ktau : V
  ktau_scale : V
deriving DecidableEq, Repr

/-- Modelled from the spec: a default-constructed `yarp::dev::Pid`, as `std::vector::resize`
creates it (all fields zero). -/
def Pid.default {V : Type} [Zero V] : Pid V :=
  ⟨0, 0, 0, 0, 0, 0, 0, 0, 0, 0⟩

/-- Modelled from the spec: a default-constructed `yarp::dev::MotorTorqueParameters`, as
`std::vector::resize` creates it (all fields zero). -/
def MotorTorqueParameters.default {V : Type} [Zero V] : MotorTorqueParameters V :=
  ⟨0, 0, 0, 0⟩

/-- Modelled from the spec: the control-type enum `yarp::dev::PidControlTypeEnum`, declared
outside these sources, is an integer-valued vocabulary code; a zero-initialised member
holds the code 0, which is the code of no control type. -/
abbrev PidControlTypeEnum := Nat

/-- Modelled from the spec: the code of the control type Position
(`yarp::dev::VOCAB_PIDTYPE_POSITION`, the vocabulary `pos`). -/
def VOCAB_PIDTYPE_POSITION : PidControlTypeEnum := 112 + 111 * 256 + 115 * 65536

/-- Modelled from the spec: the code of the control type Torque
(`yarp::dev::VOCAB_PIDTYPE_TORQUE`, the vocabulary `trq`). -/
def VOCAB_PIDTYPE_TORQUE : PidControlTypeEnum := 116 + 114 * 256 + 113 * 65536

/-- Modelled from the spec: the state held by the robot device behind `IPidControl` and
`ITorqueControl`, that is the PID record of every control type and joint and the motor
torque parameters of every joint. -/
structure Device (V : Type) where
  pids : PidControlTypeEnum → Nat → Pid V
  motorTorqueParams : Nat → MotorTorqueParameters V

/-- Modelled from the spec: whether each call on the device interfaces `IPidControl` and
`ITorqueControl` reports success, depending on its arguments.  It may differ from one phase
to the next. -/
structure DeviceBehaviour (V : Type) where
  getPids : PidControlTypeEnum → Bool
  setPids : PidControlTypeEnum → List (Pid V) → Bool
  getMotorTorqueParams : Nat → Bool
  setMotorTorqueParams : Nat → MotorTorqueParameters V → Bool

/-- Modelled from the spec: the class `wbt::RobotInterface`, which is not part of these
sources, as far as the block uses it: the number of degrees of freedom of its
configuration, and whether `getInterface` hands out a non-null `IPidControl` and
`ITorqueControl`.  It is a dependency injected into the block and fixed for its lifetime. -/
structure RobotInterface where
  dofs : Nat
  iPidControl : Bool
  iTorqueControl : Bool
deriving DecidableEq, Repr

/-- A call made by the block on the robot interface or on a device interface, with the
arguments it passed and the outcome `ok` it got. -/
inductive Call (V : Type) where
  | getInterfacePid (ok : Bool)
  | getInterfaceTorque (ok : Bool)
  | getPids (type : PidControlTypeEnum) (ok : Bool)
  | setPids (type : PidControlTypeEnum) (pids : List (Pid V)) (ok : Bool)
  | getMotorTorqueParams (m : Nat) (ok : Bool)
  | setMotorTorqueParams (m : Nat) (params : MotorTorqueParameters V) (ok : Bool)
deriving DecidableEq, Repr

/-- The outcome of a call. -/
def Call.ok {V : Type} : Call V → Bool
  | .getInterfacePid ok => ok
  | .getInterfaceTorque ok => ok
  | .getPids _ ok => ok
  | .setPids _ _ ok => ok
  | .getMotorTorqueParams _ ok => ok
  | .setMotorTorqueParams _ _ ok => ok

/-- The call is `IPidControl::setPids`. -/
def Call.isSetPids {V : Type} : Call V → Bool
  | .setPids _ _ _ => true
  | _ => false

/-- The call is `ITorqueControl::setMotorTorqueParams`. -/
def Call.isSetMotorTorqueParams {V : Type} : Call V → Bool
  | .setMotorTorqueParams _ _ _ => true
  | _ => false

/-- The call is a device get or set call (not an interface acquisition). -/
def Call.isDeviceCall {V : Type} : Call V → Bool
  | .getInterfacePid _ => false
  | .getInterfaceTorque _ => false
  | _ => true

/-- Modelled from the spec: the class `wbt::Signal`, which is not part of these sources, as
far as the block uses it: whether the signal is valid and the value `get<double>(i)` reads
at index `i`. -/
structure Signal (V : Type) where
  isValid : Bool
  get : Nat → V

/-- Modelled from the spec: the constant `Signal::DynamicSize` that marks a port of dynamic
length. -/
def Signal.DynamicSize : Int := -1

/-- Modelled from the spec: the enum `wbt::DataType`, reduced to the enumerator the block
uses for its ports of real values. -/
inductive DataType where
  | DOUBLE
deriving DecidableEq, Repr

/-- Modelled from the spec: the enum `wbt::ParameterType`, reduced to the enumerators the
block uses (boolean flags, the control-type string, the numeric vectors). -/
inductive ParameterType where
  | BOOL
  | STRING
  | DOUBLE
deriving DecidableEq, Repr

/-- Modelled from the spec: the constant `ParameterMetadata::DynamicSize` that marks a
parameter dimension of dynamic size. -/
def ParameterMetadata.DynamicSize : Int := -1

/-- Modelled from the spec: the class `wbt::ParameterMetadata`, which is not part of these
sources, with the five values the block constructs it from: type, index, rows, columns,
name. -/
structure ParameterMetadata where
  type : ParameterType
  index : Int
  rows : Int
  cols : Int
  name : String
deriving DecidableEq, Repr

/-- Modelled from the spec: the parameter set of the block, that is the content of the member
`m_parameters` (class `wbt::Parameters`, not part of these sources) after parsing.  The call
`getParameter(name, _)` succeeds with the value `v` when the field is `some v` and fails
when it is `none`. -/
structure Parameters (V : Type) where
  SetP : Option Bool
  SetI : Option Bool
  SetD : Option Bool
  ControlType : Option String
  SetKTau : Option Bool
  SetBemf : Option Bool
  KTau : Option (List V)
  Bemf : Option (List V)

/-- Modelled from the spec: one input port as the block declares it in
`BlockInformation::IOData` (not part of these sources): index, dimensions, data type. -/
structure Port where
  index : Int
  dims : List Int
  dataType : DataType
deriving DecidableEq, Repr

/-- Modelled from the spec: the record `BlockInformation::IOData` of declared input and
output ports. -/
structure IOData where
  input : List Port
  output : List Port
deriving DecidableEq, Repr

/-- Modelled from the spec: the host context `wbt::BlockInformation` of one block instance,
which is not part of these sources, as the results of the methods the block calls:
registering a parameter metadata entry, parsing the parameters (`some p` is success with
the parameter set `p`), declaring the ports, and reading the width and the signal of the
input port of a given index. -/
structure BlockInformation (V : Type) where
  addParameterMetadata : ParameterMetadata → Bool
  parseParameters : Option (Parameters V)
  setIOPortsData : IOData → Bool
  getInputPortWidth : Int → Nat
  getInputPortSignal : Int → Signal V

/-- Modelled from the spec: the base class `wbt::WBBlock`, which is not part of these
sources, as its number of parameters and the results of its lifecycle methods
(`initialise` is the result of `WBBlock::initialize`). -/
structure WBBlock where
  NumberOfParameters : Nat
  configureSizeAndPorts : Bool
  initialise : Bool
  terminate : Bool
deriving DecidableEq, Repr

/-! ## The block -/

namespace SetMotorParameters

/-- The file-scope variables `InputIndex_PGains`, `InputIndex_IGains`, `InputIndex_DGains`,
shared by all block instances of the process. -/
structure Globals where
  InputIndex_PGains : Int
  InputIndex_IGains : Int
  InputIndex_DGains : Int
deriving DecidableEq, Repr

/-- The initial values of the file-scope variables. -/
def Globals.initial : Globals := ⟨-1, -1, -1⟩

/-- The class `SetMotorParameters::impl`. -/
structure impl (V : Type) where
  pidValuesDefault : List (Pid V)
  pidValuesApplied : List (Pid V)
  controlType : PidControlTypeEnum
  firstRun : Bool
  setP : Bool
  setI : Bool
  setD : Bool
  setKTau : Bool
  setBemf : Bool
  motorParamsDefault : List (MotorTorqueParameters V)
  motorParamsApplied : List (MotorTorqueParameters V)
deriving DecidableEq, Repr

/-- The constructor `SetMotorParameters()`: `new impl()` zero-initialises the scalar
members, applies the member initialiser `firstRun = false`, and leaves the vectors empty. -/
def new {V : Type} : impl V :=
  { pidValuesDefault := [], pidValuesApplied := [], controlType := 0, firstRun := false,
    setP := false, setI := false, setD := false, setKTau := false, setBemf := false,
    motorParamsDefault := [], motorParamsApplied := [] }

/-- The method `numberOfParameters`, whose result is an `unsigned`. -/
def numberOfParameters (wb : WBBlock) : Nat := (wb.NumberOfParameters + 8) % 2 ^ 32

/-- The metadata list built by `parseParameters`, with the values of `enum ParamIndex`
(`Bias = WBBlock::NumberOfParameters - 1`, then `SetP`, `SetI`, `SetD`, `PidCtrlType`,
`SetKTau`, `KTau`, `SetBemf`, `Bemf`). -/
def metadata (wb : WBBlock) : List ParameterMetadata :=
  let Bias : Int := (wb.NumberOfParameters : Int) - 1
  [ ⟨.BOOL, Bias + 1, 1, 1, "SetP"⟩,
    ⟨.BOOL, Bias + 2, 1, 1, "SetI"⟩,
    ⟨.BOOL, Bias + 3, 1, 1, "SetD"⟩,
    ⟨.STRING, Bias + 4, 1, 1, "ControlType"⟩,
    ⟨.BOOL, Bias + 5, 1, 1, "SetKTau"⟩,
    ⟨.BOOL, Bias + 7, 1, 1, "SetBemf"⟩,
    ⟨.DOUBLE, Bias + 6, 1, ParameterMetadata.DynamicSize, "KTau"⟩,
    ⟨.DOUBLE, Bias + 8, 1, ParameterMetadata.DynamicSize, "Bemf"⟩ ]

/-- The method `parseParameters`: registers every metadata entry, failing at the first
one the host rejects, then parses; `some p` is success with `m_parameters = p`. -/
def parseParameters {V : Type} (wb : WBBlock) (bi : BlockInformation V) :
    Option (Parameters V) :=
  if (metadata wb).all bi.addParameterMetadata then bi.parseParameters else none

/-- The result of `configureSizeAndPorts`: the returned flag, the file-scope variables
after the call, and the `IOData` handed to `setIOPortsData` if that call was reached. -/
structure ConfigResult where
  ret : Bool
  globals : Globals
  ioData : Option IOData
deriving DecidableEq, Repr

/-- A dynamically sized port of doubles with the given index. -/
def gainPort (index : Int) : Port := ⟨index, [Signal.DynamicSize], DataType.DOUBLE⟩

/-- The method `configureSizeAndPorts`.  The chain `ok = ok && getParameter(..)` stops at the
first flag that cannot be read; the second test of `ok`, after `setIOPortsData`, can no
longer fail and is left out. -/
def configureSizeAndPorts {V : Type} (g : Globals) (wb : WBBlock) (bi : BlockInformation V) :
    ConfigResult :=
  if !wb.configureSizeAndPorts then ⟨false, g, none⟩ else
  match parseParameters wb bi with
  | none => ⟨false, g, none⟩
  | some p =>
  match p.SetP with
  | none => ⟨false, g, none⟩
  | some setP =>
  match p.SetI with
  | none => ⟨false, g, none⟩
  | some setI =>
  match p.SetD with
  | none => ⟨false, g, none⟩
  | some setD =>
    let numberOfInputs : Int := -1
    let input : List Port := []
    -- if (setP) { InputIndex_PGains = ++numberOfInputs; ioData.input.emplace_back(...) }
    let numberOfInputs := if setP then numberOfInputs + 1 else numberOfInputs
    let g := if setP then { g with InputIndex_PGains := numberOfInputs } else g
    let input := if setP then input ++ [gainPort g.InputIndex_PGains] else input
    -- if (setI) { ... }
    let numberOfInputs := if setI then numberOfInputs + 1 else numberOfInputs
    let g := if setI then { g with InputIndex_IGains := numberOfInputs } else g
    let input := if setI then input ++ [gainPort g.InputIndex_IGains] else input
    -- if (setD) { ... }
    let numberOfInputs := if setD then numberOfInputs + 1 else numberOfInputs
    let g := if setD then { g with InputIndex_DGains := numberOfInputs } else g
    let input := if setD then input ++ [gainPort g.InputIndex_DGains] else input
    let ioData : IOData := ⟨input, []⟩
    if !bi.setIOPortsData ioData then ⟨false, g, some ioData⟩ else
    ⟨true, g, some ioData⟩


/-- The result of a phase (`initialize`, `output`, `terminate`): the flag returned to the
host, the block state and device state it leaves, and the calls it made, in order. -/
structure Result (V : Type) where
  ret : Bool
  pImpl : impl V
  dev : Device V
  calls : List (Call V)

/-- The operation `std::vector::resize(n)`: keeps the first `n` elements and pads with
default-constructed ones. -/
def resize {α : Type} (xs : List α) (n : Nat) (d : α) : List α :=
  xs.take n ++ List.replicate (n - xs.length) d

/-- Modelled from the spec: the batched read `IPidControl::getPids(type, buffer)`: the device fills the first `dofs` entries
of the buffer with its records; a failed call leaves the buffer as it was.  A buffer with
fewer than `dofs` entries is accessed out of range. -/
def getPids {V : Type} (ri : RobotInterface) (beh : DeviceBehaviour V) (dev : Device V)
    (type : PidControlTypeEnum) (buffer : List (Pid V)) : Option (Bool × List (Pid V)) :=
  if buffer.length < ri.dofs then none
  else if beh.getPids type then
    some (true, (List.range ri.dofs).map (dev.pids type) ++ buffer.drop ri.dofs)
  else some (false, buffer)

/-- Modelled from the spec: the batched write `IPidControl::setPids(type, buffer)`: the device takes the first `dofs` entries
of the buffer as its records of that type; a failed call leaves the device as it was.  A
buffer with fewer than `dofs` entries is accessed out of range. -/
def setPids {V : Type} (ri : RobotInterface) (beh : DeviceBehaviour V) (dev : Device V)
    (type : PidControlTypeEnum) (buffer : List (Pid V)) : Option (Bool × Device V) :=
  if buffer.length < ri.dofs then none
  else if beh.setPids type (buffer.take ri.dofs) then
    let pids : PidControlTypeEnum → Nat → Pid V := fun t j =>
      if t = type ∧ j < ri.dofs then (buffer[j]?).getD (dev.pids t j) else dev.pids t j
    some (true, { dev with pids := pids })
  else some (false, dev)

/-- Modelled from the spec: the per-joint write `ITorqueControl::setMotorTorqueParams(m, params)`
on the device state; a failed call leaves the device as it was. -/
def setMotorTorqueParams {V : Type} (beh : DeviceBehaviour V) (dev : Device V) (m : Nat)
    (params : MotorTorqueParameters V) : Bool × Device V :=
  if beh.setMotorTorqueParams m params then
    let motorTorqueParams : Nat → MotorTorqueParameters V := fun j =>
      if j = m then params else dev.motorTorqueParams j
    (true, { dev with motorTorqueParams := motorTorqueParams })
  else (false, dev)

/-- The loop of `initialize` that reads the default motor torque parameters:
`for (m = 0; m < dofs; ++m) if (!getMotorTorqueParams(m, &motorParamsDefault[m])) return false;`.
The flag of the result is `false` when the loop returned from the function. -/
def getDefaultsLoop {V : Type} (beh : DeviceBehaviour V) (dev : Device V) :
    Nat → Nat → List (MotorTorqueParameters V) → List (Call V) →
    Option (Bool × List (MotorTorqueParameters V) × List (Call V))
  | 0, _, ps, cs => some (true, ps, cs)
  | k + 1, m, ps, cs =>
    if m < ps.length then
      if beh.getMotorTorqueParams m then
        getDefaultsLoop beh dev k (m + 1) (ps.set m (dev.motorTorqueParams m))
          (cs ++ [Call.getMotorTorqueParams m true])
      else some (false, ps, cs ++ [Call.getMotorTorqueParams m false])
    else none

/-- The guarded assignment `if (flag) params[m].field = values[m];` of `initialize`, where
`assign` writes the field.  Both indexings are out of range when `m` is not below the
size of the vector. -/
def assignAt {V : Type} (flag : Bool)
    (assign : MotorTorqueParameters V → V → MotorTorqueParameters V) (values : List V)
    (m : Nat) (params : List (MotorTorqueParameters V)) :
    Option (List (MotorTorqueParameters V)) :=
  if flag then
    match params[m]?, values[m]? with
    | some p, some v => some (params.set m (assign p v))
    | _, _ => none
  else some params

/-- The loop of `initialize` that applies the mask values:
`for (m = 0; m < dofs; ++m) { if (setKTau) motorParamsApplied[m].ktau = kTauVector[m];
if (setBemf) motorParamsApplied[m].bemf = bemfVector[m]; }`. -/
def applyMaskLoop {V : Type} (setKTau setBemf : Bool) (kTauVector bemfVector : List V) :
    Nat → Nat → List (MotorTorqueParameters V) → Option (List (MotorTorqueParameters V))
  | 0, _, ps => some ps
  | k + 1, m, ps =>
    match assignAt setKTau (fun p v => { p with ktau := v }) kTauVector m ps with
    | none => none
    | some ps1 =>
      match assignAt setBemf (fun p v => { p with bemf := v }) bemfVector m ps1 with
      | none => none
      | some ps2 => applyMaskLoop setKTau setBemf kTauVector bemfVector k (m + 1) ps2

/-- The resolution of the `ControlType` string in `initialize`. -/
def resolveControlType (controlType : String) : Option PidControlTypeEnum :=
  if controlType = "Position" then some VOCAB_PIDTYPE_POSITION
  else if controlType = "Torque" then some VOCAB_PIDTYPE_TORQUE
  else none

/-- The part of `initialize` from `pidValuesDefault.resize(dofs)` to the end, entered with
the parameters read and the control type resolved. -/
def initialiseDevice {V : Type} [Zero V] (g : Globals) (bi : BlockInformation V)
    (ri : RobotInterface) (beh : DeviceBehaviour V) (dev : Device V)
    (kTauVector bemfVector : List V) (s : impl V) : Option (Result V) :=
  let dofs := ri.dofs
  -- Initialize the vector size to the number of dofs
  let s := { s with pidValuesDefault := resize s.pidValuesDefault dofs Pid.default }
  -- Get the interface
  let calls := [Call.getInterfacePid ri.iPidControl]
  if !ri.iPidControl then some ⟨false, s, dev, calls⟩ else
  -- Store the default gains
  match getPids ri beh dev s.controlType s.pidValuesDefault with
  | none => none
  | some (okPids, buffer) =>
  let s := { s with pidValuesDefault := buffer }
  let calls := calls ++ [Call.getPids s.controlType okPids]
  if !okPids then some ⟨false, s, dev, calls⟩ else
  -- Initialize the vector of the applied pid gains with the default gains
  let s := { s with pidValuesApplied := s.pidValuesDefault }
  -- Get the interface
  let calls := calls ++ [Call.getInterfaceTorque ri.iTorqueControl]
  if !ri.iTorqueControl then some ⟨false, s, dev, calls⟩ else
  -- Resize the vectors
  let s := { s with
    motorParamsDefault := resize s.motorParamsDefault dofs MotorTorqueParameters.default,
    motorParamsApplied := resize s.motorParamsApplied dofs MotorTorqueParameters.default }
  -- Get the default values
  match getDefaultsLoop beh dev dofs 0 s.motorParamsDefault calls with
  | none => none
  | some (okLoop, defaults, calls) =>
  let s := { s with motorParamsDefault := defaults }
  if !okLoop then some ⟨false, s, dev, calls⟩ else
  -- Initialize the vector of the applied parameters with the default values
  let s := { s with motorParamsApplied := s.motorParamsDefault }
  -- Update the applied motor parameters structures with data from the mask
  match applyMaskLoop s.setKTau s.setBemf kTauVector bemfVector dofs 0 s.motorParamsApplied with
  | none => none
  | some applied =>
  let s := { s with motorParamsApplied := applied }
  -- Validate signals size
  if (s.setP && bi.getInputPortWidth g.InputIndex_PGains != dofs)
      || (s.setI && bi.getInputPortWidth g.InputIndex_IGains != dofs)
      || (s.setD && bi.getInputPortWidth g.InputIndex_DGains != dofs) then
    some ⟨false, s, dev, calls⟩
  else some ⟨true, s, dev, calls⟩

/-- The method `initialize`.  The chain `ok = ok && getParameter(..)` stops at the first
parameter that cannot be read, the members read before it being already assigned. -/
def initialise {V : Type} [Zero V] (g : Globals) (wb : WBBlock) (bi : BlockInformation V)
    (ri : RobotInterface) (beh : DeviceBehaviour V) (dev : Device V) (s : impl V) :
    Option (Result V) :=
  if !wb.initialise then some ⟨false, s, dev, []⟩ else
  match parseParameters wb bi with
  | none => some ⟨false, s, dev, []⟩
  | some p =>
  match p.SetP with
  | none => some ⟨false, s, dev, []⟩
  | some setP =>
  let s := { s with setP := setP }
  match p.SetI with
  | none => some ⟨false, s, dev, []⟩
  | some setI =>
  let s := { s with setI := setI }
  match p.SetD with
  | none => some ⟨false, s, dev, []⟩
  | some setD =>
  let s := { s with setD := setD }
  match p.ControlType with
  | none => some ⟨false, s, dev, []⟩
  | some controlType =>
  match p.SetKTau with
  | none => some ⟨false, s, dev, []⟩
  | some setKTau =>
  let s := { s with setKTau := setKTau }
  match p.SetBemf with
  | none => some ⟨false, s, dev, []⟩
  | some setBemf =>
  let s := { s with setBemf := setBemf }
  match p.KTau with
  | none => some ⟨false, s, dev, []⟩
  | some kTauVector =>
  match p.Bemf with
  | none => some ⟨false, s, dev, []⟩
  | some bemfVector =>
  -- Get the RobotInterface, the Controlled Joints and the DoFs
  if kTauVector.length ≠ ri.dofs ∨ bemfVector.length ≠ ri.dofs then
    some ⟨false, s, dev, []⟩
  else
  -- Handle the P, I, D gains
  match resolveControlType controlType with
  | none => some ⟨false, s, dev, []⟩
  | some type =>
  let s := { s with controlType := type }
  initialiseDevice g bi ri beh dev kTauVector bemfVector s

/-- The loop of `terminate` that restores the default motor torque parameters:
`for (m = 0; m < dofs; ++m) if (!setMotorTorqueParams(m, motorParamsDefault[m])) break;`.
The same loop, over `motorParamsApplied`, applies the parameters in `output`. -/
def setParamsLoop {V : Type} (beh : DeviceBehaviour V)
    (params : List (MotorTorqueParameters V)) :
    Nat → Nat → Device V → List (Call V) → Option (Device V × List (Call V))
  | 0, _, dev, cs => some (dev, cs)
  | k + 1, m, dev, cs =>
    match params[m]? with
    | none => none
    | some p =>
      let r := setMotorTorqueParams beh dev m p
      if r.1 then setParamsLoop beh params k (m + 1) r.2 (cs ++ [Call.setMotorTorqueParams m p true])
      else some (r.2, cs ++ [Call.setMotorTorqueParams m p false])

/-- The method `terminate`. -/
def terminate {V : Type} (wb : WBBlock) (ri : RobotInterface) (beh : DeviceBehaviour V)
    (dev : Device V) (s : impl V) : Option (Result V) :=
  let dofs := ri.dofs
  -- Get the IPidControl interface
  let calls := [Call.getInterfacePid ri.iPidControl]
  if !ri.iPidControl then some ⟨false, s, dev, calls⟩ else
  -- Reset default PID gains
  match setPids ri beh dev s.controlType s.pidValuesDefault with
  | none => none
  | some (okPids, dev1) =>
  let calls := calls ++ [Call.setPids s.controlType (s.pidValuesDefault.take dofs) okPids]
  if !okPids then some ⟨false, s, dev1, calls⟩ else
  -- Get the ITorqueControl interface
  let calls := calls ++ [Call.getInterfaceTorque ri.iTorqueControl]
  if !ri.iTorqueControl then some ⟨false, s, dev1, calls⟩ else
  -- Restore default motor torque parameters
  match setParamsLoop beh s.motorParamsDefault dofs 0 dev1 calls with
  | none => none
  | some (dev2, calls) =>
  some ⟨wb.terminate, s, dev2, calls⟩

/-- The gain loop of `output` for one channel, whose field is read by `field` and written
by `assign`: `for (i = 0; i < pidValuesApplied.size(); ++i) { gain = signal.get(i);
if (pidValuesApplied[i].field != gain) { sendPids = true; pidValuesApplied[i].field = gain; } }`.
The arguments are the entries from index `i` on, the index `i`, and `sendPids`. -/
def gainLoop {V : Type} [DecidableEq V] [HasNaN V] (field : Pid V → V) (assign : Pid V → V → Pid V)
    (signal : Signal V) : List (Pid V) → Nat → Bool → List (Pid V) × Bool
  | [], _, sendPids => ([], sendPids)
  | p :: ps, i, sendPids =>
    let gain := signal.get i
    if doubleNe (field p) gain then
      let r := gainLoop field assign signal ps (i + 1) true
      (assign p gain :: r.1, r.2)
    else
      let r := gainLoop field assign signal ps (i + 1) sendPids
      (p :: r.1, r.2)

/-- The block `if (pImpl->firstRun) { .. }` of `output`.  The flag of the result is `false`
when the block returned `false` from the function, and `true` when `output` goes on. -/
def firstRunBlock {V : Type} (ri : RobotInterface) (beh : DeviceBehaviour V) (dev : Device V)
    (s : impl V) : Option (Bool × impl V × Device V × List (Call V)) :=
  -- At the first run apply the motor torque parameters
  if s.firstRun then
    let s := { s with firstRun := false }
    -- Get the interface
    let calls := [Call.getInterfaceTorque ri.iTorqueControl]
    if !ri.iTorqueControl then some (false, s, dev, calls) else
    -- Apply the motor parameters
    match setParamsLoop beh s.motorParamsApplied ri.dofs 0 dev calls with
    | none => none
    | some (dev1, calls) => some (true, s, dev1, calls)
  else some (true, s, dev, [])

/-- The three blocks `if (pImpl->setP) { .. }`, `if (pImpl->setI) { .. }`,
`if (pImpl->setD) { .. }` of `output`: the new `pidValuesApplied` and the flag `sendPids`.
The variable `ok` that these blocks assign is never read by `output` and is left out. -/
def readGains {V : Type} [DecidableEq V] [HasNaN V] (g : Globals) (bi : BlockInformation V)
    (s : impl V) : List (Pid V) × Bool :=
  let sendPids := false
  let rP :=
    if s.setP then
      gainLoop Pid.kp (fun p v => { p with kp := v })
        (bi.getInputPortSignal g.InputIndex_PGains) s.pidValuesApplied 0 sendPids
    else (s.pidValuesApplied, sendPids)
  let rI :=
    if s.setI then
      gainLoop Pid.ki (fun p v => { p with ki := v })
        (bi.getInputPortSignal g.InputIndex_IGains) rP.1 0 rP.2
    else rP
  if s.setD then
    gainLoop Pid.kd (fun p v => { p with kd := v })
      (bi.getInputPortSignal g.InputIndex_DGains) rI.1 0 rI.2
  else rI

/-- The method `output`. -/
def output {V : Type} [DecidableEq V] [HasNaN V] (g : Globals) (bi : BlockInformation V)
    (ri : RobotInterface) (beh : DeviceBehaviour V) (dev : Device V) (s : impl V) :
    Option (Result V) :=
  match firstRunBlock ri beh dev s with
  | none => none
  | some (false, s, dev, calls) => some ⟨false, s, dev, calls⟩
  | some (true, s, dev, calls) =>
  let gains := readGains g bi s
  let s := { s with pidValuesApplied := gains.1 }
  -- if (sendPids)
  if gains.2 then
    -- Get the interface
    let calls := calls ++ [Call.getInterfacePid ri.iPidControl]
    if !ri.iPidControl then some ⟨false, s, dev, calls⟩ else
    -- Apply the new pid gains
    match setPids ri beh dev s.controlType s.pidValuesApplied with
    | none => none
    | some (okPids, dev1) =>
    let calls := calls ++ [Call.setPids s.controlType (s.pidValuesApplied.take ri.dofs) okPids]
    if !okPids then some ⟨false, s, dev1, calls⟩ else
    some ⟨true, s, dev1, calls⟩
  else some ⟨true, s, dev, calls⟩

/-! ## Runs of the block -/

/-- The inputs of one `output` call: the file-scope variables at that time, the host
context, and the behaviour of the device during the call. -/
structure Step (V : Type) where
  g : Globals
  bi : BlockInformation V
  beh : DeviceBehaviour V

/-- A sequence of `output` calls, each on the block and device state left by the one
before, whatever flag that one returned. -/
def runOutputs {V : Type} [DecidableEq V] [HasNaN V] (ri : RobotInterface) :
    List (Step V) → impl V → Device V → Option (impl V × Device V)
  | [], s, dev => some (s, dev)
  | st :: rest, s, dev =>
    match output st.g st.bi ri st.beh dev s with
    | none => none
    | some r => runOutputs ri rest r.pImpl r.dev

/-- The block state `s` and device state `dev` are those of a successfully initialized
block: `initialize` returned true and any number of `output` calls followed. -/
def Initialized {V : Type} [DecidableEq V] [HasNaN V] [Zero V] (ri : RobotInterface) (s : impl V)
    (dev : Device V) : Prop :=
  ∃ (g : Globals) (wb : WBBlock) (bi : BlockInformation V) (beh : DeviceBehaviour V)
    (dev0 : Device V) (s0 : impl V) (r0 : Result V) (steps : List (Step V)),
    initialise g wb bi ri beh dev0 s0 = some r0 ∧ r0.ret = true
      ∧ runOutputs ri steps r0.pImpl r0.dev = some (s, dev)

/-- The signal `output` reads for the proportional gains. -/
def Step.pGainsSignal {V : Type} (st : Step V) : Signal V :=
  st.bi.getInputPortSignal st.g.InputIndex_PGains

/-- The signal `output` reads for the integral gains. -/
def Step.iGainsSignal {V : Type} (st : Step V) : Signal V :=
  st.bi.getInputPortSignal st.g.InputIndex_IGains

/-- The signal `output` reads for the derivative gains. -/
def Step.dGainsSignal {V : Type} (st : Step V) : Signal V :=
  st.bi.getInputPortSignal st.g.InputIndex_DGains

/-- The input signal of every enabled channel is valid. -/
def ValidInputs {V : Type} (s : impl V) (st : Step V) : Prop :=
  (s.setP = true → st.pGainsSignal.isValid = true)
  ∧ (s.setI = true → st.iGainsSignal.isValid = true)
  ∧ (s.setD = true → st.dGainsSignal.isValid = true)

/-- For some enabled channel and some joint, the input value compares unequal (`!=`) to the
applied one. -/
def GainsDiffer {V : Type} [DecidableEq V] [HasNaN V] (s : impl V) (st : Step V) : Prop :=
  (s.setP = true ∧ ∃ i p, s.pidValuesApplied[i]? = some p
    ∧ doubleNe p.kp (st.pGainsSignal.get i) = true)
  ∨ (s.setI = true ∧ ∃ i p, s.pidValuesApplied[i]? = some p
    ∧ doubleNe p.ki (st.iGainsSignal.get i) = true)
  ∨ (s.setD = true ∧ ∃ i p, s.pidValuesApplied[i]? = some p
    ∧ doubleNe p.kd (st.dGainsSignal.get i) = true)

/-- No input value of an enabled channel is NaN, for any joint. -/
def NoNaNInputs {V : Type} [HasNaN V] (ri : RobotInterface) (s : impl V) (st : Step V) :
    Prop :=
  ∀ i, i < ri.dofs →
    (s.setP = true → HasNaN.isNaN (st.pGainsSignal.get i) = false)
    ∧ (s.setI = true → HasNaN.isNaN (st.iGainsSignal.get i) = false)
    ∧ (s.setD = true → HasNaN.isNaN (st.dGainsSignal.get i) = false)

/-- The two steps carry the same input vector on every enabled channel. -/
def SameInputs {V : Type} (ri : RobotInterface) (s : impl V) (st1 st2 : Step V) : Prop :=
  ∀ i, i < ri.dofs →
    (s.setP = true → st2.pGainsSignal.get i = st1.pGainsSignal.get i)
    ∧ (s.setI = true → st2.iGainsSignal.get i = st1.iGainsSignal.get i)
    ∧ (s.setD = true → st2.dGainsSignal.get i = st1.dGainsSignal.get i)

/-- The number of `setPids` calls among the calls of a phase. -/
def pidWrites {V : Type} (calls : List (Call V)) : Nat :=
  (calls.filter Call.isSetPids).length

/-- The facts on sizes and interfaces that hold once `initialize` has returned true: both
device interfaces can be acquired and the four per-joint vectors hold `dofs` entries. -/
def Sized {V : Type} (ri : RobotInterface) (s : impl V) : Prop :=
  ri.iPidControl = true ∧ ri.iTorqueControl = true
  ∧ s.pidValuesDefault.length = ri.dofs ∧ s.pidValuesApplied.length = ri.dofs
  ∧ s.motorParamsDefault.length = ri.dofs ∧ s.motorParamsApplied.length = ri.dofs

/-- The three phases in which the block calls the device. -/
inductive Phase where
  | initialisePhase
  | outputPhase
  | terminatePhase
deriving DecidableEq, Repr

/-- One phase of the block, run on the given block and device state. -/
def runPhase {V : Type} [DecidableEq V] [HasNaN V] [Zero V] (phase : Phase) (g : Globals) (wb : WBBlock)
    (bi : BlockInformation V) (ri : RobotInterface) (beh : DeviceBehaviour V)
    (dev : Device V) (s : impl V) : Option (Result V) :=
  match phase with
  | .initialisePhase => initialise g wb bi ri beh dev s
  | .outputPhase => output g bi ri beh dev s
  | .terminatePhase => terminate wb ri beh dev s

/-! ## Concrete fixtures -/

/-- The fixtures over the integers use integer-valued doubles, none of which is NaN. -/
instance intHasNaN : HasNaN Int := ⟨fun _ => false⟩

/-- A signal over the integers with the given validity and values. -/
def exampleSignal (valid : Bool) (values : List Int) : Signal Int :=
  ⟨valid, fun i => values.getD i 0⟩

/-- A fully populated parameter set. -/
def exampleParameters (setP setI setD : Bool) (controlType : String) (setKTau setBemf : Bool)
    (kTau bemf : List Int) : Parameters Int :=
  ⟨some setP, some setI, some setD, some controlType, some setKTau, some setBemf,
    some kTau, some bemf⟩

/-- A host context that accepts all metadata and ports and delivers the given parameters,
port widths and signals. -/
def exampleBlockInformation (p : Parameters Int) (width : Int → Nat)
    (signal : Int → Signal Int) : BlockInformation Int :=
  { addParameterMetadata := fun _ => true
    parseParameters := some p
    setIOPortsData := fun _ => true
    getInputPortWidth := width
    getInputPortSignal := signal }

/-- A device whose joint `j` holds the gains `10 + j`, `20 + j`, `30 + j` and the torque
parameters `bemf = 40 + j`, `ktau = 50 + j`. -/
def exampleDevice : Device Int :=
  { pids := fun _ j => ⟨10 + j, 20 + j, 30 + j, 1, 2, 3, 4, 5, 6, 7⟩
    motorTorqueParams := fun j => ⟨40 + j, 1, 50 + j, 1⟩ }

/-- A device behaviour that is the same for all arguments of each call. -/
def exampleBehaviour (getPidsOk setPidsOk getParamsOk setParamsOk : Bool) :
    DeviceBehaviour Int :=
  ⟨fun _ => getPidsOk, fun _ _ => setPidsOk, fun _ => getParamsOk, fun _ _ => setParamsOk⟩

/-- A base class whose lifecycle methods succeed. -/
def exampleWBBlock : WBBlock := ⟨4, true, true, true⟩

/-- A robot with the given number of joints and both device interfaces. -/
def exampleRobot (dofs : Nat) : RobotInterface := ⟨dofs, true, true⟩

/-- The host context of the scenario `DoFs = 2`, only `SetP` enabled, control type
`Position`, `KTau = Bemf = [0, 0]`: one port, of index 0 and width 2, that carries the
given proportional gains. -/
def scenarioBlock (pGains : List Int) : BlockInformation Int :=
  exampleBlockInformation
    (exampleParameters true false false "Position" false false [0, 0] [0, 0])
    (fun i => if i = 0 then 2 else 0)
    (fun i => if i = 0 then exampleSignal true pGains else exampleSignal false [])

/-- The file-scope variables after `configureSizeAndPorts` of the scenario block. -/
def scenarioGlobals : Globals :=
  (configureSizeAndPorts Globals.initial exampleWBBlock (scenarioBlock [])).globals

/-- A result that stands for undefined behaviour when a fixture is evaluated. -/
def noResult : Result Int := ⟨false, SetMotorParameters.new, exampleDevice, []⟩

/-- The scenario block after construction and `initialize`. -/
def scenarioStart : Result Int :=
  (initialise scenarioGlobals exampleWBBlock (scenarioBlock []) (exampleRobot 2)
    (exampleBehaviour true true true true) exampleDevice SetMotorParameters.new).getD noResult

/-- The `output` step of the scenario with the given proportional gains. -/
def scenarioStep (pGains : List Int) : Step Int :=
  ⟨scenarioGlobals, scenarioBlock pGains, exampleBehaviour true true true true⟩

/-- The scenario block after `initialize` and `output` calls with the given inputs. -/
def scenarioAfter (inputs : List (List Int)) : Result Int :=
  match runOutputs (exampleRobot 2) (inputs.map scenarioStep) scenarioStart.pImpl
      scenarioStart.dev with
  | some (s, dev) => ⟨true, s, dev, []⟩
  | none => noResult

/-- The number of `setPids` calls of the scenario step with the given gains, made after
`initialize` and the steps with the inputs `before`. -/
def scenarioWrites (before : List (List Int)) (pGains : List Int) : Option Nat :=
  (output scenarioGlobals (scenarioBlock pGains) (exampleRobot 2)
    (exampleBehaviour true true true true) (scenarioAfter before).dev
    (scenarioAfter before).pImpl).map (fun r => pidWrites r.calls)

/-- A host context with `SetKTau` and `SetBemf` enabled for two joints, control type
`Torque`, and no gain input. -/
def maskedBlock : BlockInformation Int :=
  exampleBlockInformation
    (exampleParameters false false false "Torque" true true [7, 8] [5, 6])
    (fun _ => 0) (fun _ => exampleSignal false [])

/-- The block of `maskedBlock` after construction and `initialize`. -/
def maskedStart : Result Int :=
  (initialise Globals.initial exampleWBBlock maskedBlock (exampleRobot 2)
    (exampleBehaviour true true true true) exampleDevice SetMotorParameters.new).getD noResult

/-- A host context for one joint whose `KTau` vector is empty. -/
def shortKTauBlock : BlockInformation Int :=
  exampleBlockInformation
    (exampleParameters false false false "Position" true false [] [0])
    (fun _ => 0) (fun _ => exampleSignal false [])

/-- The block of `shortKTauBlock` after construction and the failing `initialize`. -/
def shortKTauStart : Result Int :=
  (initialise Globals.initial exampleWBBlock shortKTauBlock (exampleRobot 1)
    (exampleBehaviour true true true true) exampleDevice SetMotorParameters.new).getD noResult

/-- The scenario block after an `initialize` during which `getPids` fails. -/
def failedGetPidsStart : Result Int :=
  (initialise scenarioGlobals exampleWBBlock (scenarioBlock []) (exampleRobot 2)
    (exampleBehaviour false true true true) exampleDevice SetMotorParameters.new).getD noResult

/-- The host context of a first block instance with only `SetI` enabled and one joint: its
single port has index 0 and carries the integral gain 7; no other index is a port of it. -/
def firstInstance : BlockInformation Int :=
  exampleBlockInformation (exampleParameters false true false "Position" false false [0] [0])
    (fun i => if i = 0 then 1 else 0)
    (fun i => if i = 0 then exampleSignal true [7] else exampleSignal false [])

/-- The host context of a second block instance with `SetP` and `SetI` enabled. -/
def secondInstance : BlockInformation Int :=
  exampleBlockInformation (exampleParameters true true false "Position" false false [0] [0])
    (fun i => if i = 0 ∨ i = 1 then 1 else 0)
    (fun i => if i = 0 ∨ i = 1 then exampleSignal true [9] else exampleSignal false [])

/-- The file-scope variables after the first instance is configured. -/
def globalsAfterFirst : Globals :=
  (configureSizeAndPorts Globals.initial exampleWBBlock firstInstance).globals

/-- The file-scope variables after the second instance is configured as well. -/
def globalsAfterSecond : Globals :=
  (configureSizeAndPorts globalsAfterFirst exampleWBBlock secondInstance).globals

/-- The integral gains the first instance applies in an `output` call that follows a
successful `initialize`, both run with the file-scope variables `g`. -/
def firstInstanceGains (g : Globals) : Option (List Int) :=
  match initialise globalsAfterFirst exampleWBBlock firstInstance (exampleRobot 1)
      (exampleBehaviour true true true true) exampleDevice SetMotorParameters.new with
  | none => none
  | some r0 =>
    (output g firstInstance (exampleRobot 1) (exampleBehaviour true true true true) r0.dev
      r0.pImpl).map (fun r => r.pImpl.pidValuesApplied.map Pid.ki)

/-- The flag `initialize` of the first instance returns with the file-scope variables `g`. -/
def firstInstanceInitialise (g : Globals) : Option Bool :=
  (initialise g exampleWBBlock firstInstance (exampleRobot 1)
    (exampleBehaviour true true true true) exampleDevice SetMotorParameters.new).map
    (fun r => r.ret)

/-- A double for the fixtures that need a NaN: NaN or an integer value. -/
inductive Gain where
  | nan
  | num (n : Int)
deriving DecidableEq, Repr

/-- The zero of the fixture doubles. -/
instance gainZero : Zero Gain := ⟨Gain.num 0⟩

/-- The NaN test of the fixture doubles. -/
instance gainHasNaN : HasNaN Gain :=
  ⟨fun x => match x with
    | Gain.nan => true
    | Gain.num _ => false⟩

/-- The scenario device over the fixture doubles: joint `j` holds the gains `10 + j`,
`20 + j`, `30 + j`. -/
def nanDevice : Device Gain :=
  { pids := fun _ j => ⟨.num (10 + j), .num (20 + j), .num (30 + j), .num 1, .num 2, .num 3,
      .num 4, .num 5, .num 6, .num 7⟩
    motorTorqueParams := fun j => ⟨.num (40 + j), .num 1, .num (50 + j), .num 1⟩ }

/-- A device behaviour over the fixture doubles whose calls all succeed. -/
def nanBehaviour : DeviceBehaviour Gain :=
  ⟨fun _ => true, fun _ _ => true, fun _ => true, fun _ _ => true⟩

/-- The host context of the scenario (`DoFs = 2`, only `SetP` enabled, control type
`Position`, `KTau = Bemf = [0, 0]`) over the fixture doubles: its port 0 is valid, has
width 2 and carries the given proportional gains. -/
def nanBlock (pGains : List Gain) : BlockInformation Gain :=
  { addParameterMetadata := fun _ => true
    parseParameters := some ⟨some true, some false, some false, some "Position", some false,
      some false, some [0, 0], some [0, 0]⟩
    setIOPortsData := fun _ => true
    getInputPortWidth := fun i => if i = 0 then 2 else 0
    getInputPortSignal := fun i =>
      if i = 0 then ⟨true, fun j => pGains.getD j 0⟩ else ⟨false, fun _ => 0⟩ }

/-- The `output` step of the scenario over the fixture doubles. -/
def nanStep (pGains : List Gain) : Step Gain :=
  ⟨scenarioGlobals, nanBlock pGains, nanBehaviour⟩

/-- A result that stands for undefined behaviour when a fixture over the fixture doubles
is evaluated. -/
def nanNoResult : Result Gain := ⟨false, SetMotorParameters.new, nanDevice, []⟩

/-- The scenario block over the fixture doubles after construction and `initialize`. -/
def nanStart : Result Gain :=
  (initialise scenarioGlobals exampleWBBlock (nanBlock []) (exampleRobot 2) nanBehaviour
    nanDevice SetMotorParameters.new).getD nanNoResult

/-- The result of the first `output` step after `nanStart`, with the proportional gains
`[NaN, 2]`. -/
def nanFirstStep : Result Gain :=
  (output scenarioGlobals (nanBlock [.nan, .num 2]) (exampleRobot 2) nanBehaviour
    nanStart.dev nanStart.pImpl).getD nanNoResult

/-- The result of the second `output` step, with the same proportional gains `[NaN, 2]`. -/
def nanSecondStep : Result Gain :=
  (output scenarioGlobals (nanBlock [.nan, .num 2]) (exampleRobot 2) nanBehaviour
    nanFirstStep.dev nanFirstStep.pImpl).getD nanNoResult

/-! ## Lemmas on the helpers and loops -/

theorem doubleNe_eq_false {V : Type} [DecidableEq V] [HasNaN V] (a b : V) :
    doubleNe a b = false ↔ HasNaN.isNaN a = false ∧ HasNaN.isNaN b = false ∧ a = b := by
  simp [doubleNe, and_assoc]

theorem eq_of_doubleNe_false {V : Type} [DecidableEq V] [HasNaN V] (a b : V)
    (h : ¬ doubleNe a b = true) : a = b := by
  simp only [Bool.not_eq_true] at h
  exact ((doubleNe_eq_false a b).1 h).2.2

theorem resize_length {α : Type} (xs : List α) (n : Nat) (d : α) :
    (resize xs n d).length = n := by
  simp only [resize, List.length_append, List.length_take, List.length_replicate]
  omega

theorem getDefaultsLoop_length {V : Type} (beh : DeviceBehaviour V) (dev : Device V) :
    ∀ (k m : Nat) (ps : List (MotorTorqueParameters V)) (cs : List (Call V))
      (ok : Bool) (ps' : List (MotorTorqueParameters V)) (cs' : List (Call V)),
      getDefaultsLoop beh dev k m ps cs = some (ok, ps', cs') → ps'.length = ps.length := by
  intro k
  induction k with
  | zero =>
    intro m ps cs ok ps' cs' h
    simp only [getDefaultsLoop, Option.some.injEq, Prod.mk.injEq] at h
    rw [h.2.1]
  | succ k ih =>
    intro m ps cs ok ps' cs' h
    simp only [getDefaultsLoop] at h
    split at h
    · split at h
      · have := ih _ _ _ _ _ _ h
        simpa using this
      · simp only [Option.some.injEq, Prod.mk.injEq] at h
        rw [h.2.1]
    · cases h

theorem getDefaultsLoop_success {V : Type} (beh : DeviceBehaviour V) (dev : Device V) :
    ∀ (k m : Nat) (ps : List (MotorTorqueParameters V)) (cs : List (Call V))
      (ps' : List (MotorTorqueParameters V)) (cs' : List (Call V)),
      getDefaultsLoop beh dev k m ps cs = some (true, ps', cs') →
      (∀ j, m ≤ j → j < m + k → ps'[j]? = some (dev.motorTorqueParams j))
      ∧ (∀ j, j < m → ps'[j]? = ps[j]?)
      ∧ cs' = cs ++ (List.range' m k).map (fun j => Call.getMotorTorqueParams j true) := by
  intro k
  induction k with
  | zero =>
    intro m ps cs ps' cs' h
    simp only [getDefaultsLoop, Option.some.injEq, Prod.mk.injEq, true_and] at h
    obtain ⟨rfl, rfl⟩ := h
    refine ⟨?_, ?_, ?_⟩
    · intro j h1 h2; omega
    · intro j _; rfl
    · simp
  | succ k ih =>
    intro m ps cs ps' cs' h
    simp only [getDefaultsLoop] at h
    split at h
    · rename_i hm
      split at h
      · obtain ⟨h2, h3, h4⟩ := ih _ _ _ _ _ h
        refine ⟨?_, ?_, ?_⟩
        · intro j hj1 hj2
          by_cases hjm : j = m
          · subst hjm
            rw [h3 j (by omega)]
            simp [List.getElem?_set, hm]
          · exact h2 j (by omega) (by omega)
        · intro j hj
          rw [h3 j (by omega), List.getElem?_set]
          have : ¬ m = j := by omega
          simp [this]
        · rw [h4]
          simp [List.range'_succ]
      · simp at h
    · cases h


theorem getDefaultsLoop_calls {V : Type} (beh : DeviceBehaviour V) (dev : Device V) :
    ∀ (k m : Nat) (ps : List (MotorTorqueParameters V)) (cs : List (Call V))
      (ok : Bool) (ps' : List (MotorTorqueParameters V)) (cs' : List (Call V)),
      getDefaultsLoop beh dev k m ps cs = some (ok, ps', cs') →
      ∃ extra, cs' = cs ++ extra ∧ ∀ c ∈ extra, c.ok = false → ok = false := by
  intro k
  induction k with
  | zero =>
    intro m ps cs ok ps' cs' h
    simp only [getDefaultsLoop, Option.some.injEq, Prod.mk.injEq] at h
    exact ⟨[], by simp [h.2.2], by simp⟩
  | succ k ih =>
    intro m ps cs ok ps' cs' h
    simp only [getDefaultsLoop] at h
    split at h
    · split at h
      · obtain ⟨extra, h1, h2⟩ := ih _ _ _ _ _ _ h
        refine ⟨Call.getMotorTorqueParams m true :: extra, by simp [h1], ?_⟩
        intro c hc hok
        rcases List.mem_cons.1 hc with rfl | hc
        · simp [Call.ok] at hok
        · exact h2 c hc hok
      · simp only [Option.some.injEq, Prod.mk.injEq] at h
        exact ⟨[Call.getMotorTorqueParams m false], h.2.2.symm, fun _ _ _ => h.1.symm⟩
    · cases h

theorem getDefaultsLoop_total {V : Type} (beh : DeviceBehaviour V) (dev : Device V) :
    ∀ (k m : Nat) (ps : List (MotorTorqueParameters V)) (cs : List (Call V)),
      m + k ≤ ps.length → ∃ r, getDefaultsLoop beh dev k m ps cs = some r := by
  intro k
  induction k with
  | zero => intro m ps cs _; exact ⟨_, rfl⟩
  | succ k ih =>
    intro m ps cs h
    simp only [getDefaultsLoop]
    rw [if_pos (by omega)]
    split
    · exact ih _ _ _ (by simp only [List.length_set]; omega)
    · exact ⟨_, rfl⟩

theorem assignAt_spec {V : Type} (flag : Bool)
    (assign : MotorTorqueParameters V → V → MotorTorqueParameters V) (values : List V)
    (m : Nat) (ps ps' : List (MotorTorqueParameters V))
    (h : assignAt flag assign values m ps = some ps') :
    ps'.length = ps.length ∧ (∀ j, j ≠ m → ps'[j]? = ps[j]?)
      ∧ (flag = false → ps' = ps)
      ∧ (flag = true → ∃ p v, ps[m]? = some p ∧ values[m]? = some v
          ∧ ps'[m]? = some (assign p v)) := by
  unfold assignAt at h
  cases flag
  · simp only [Bool.false_eq_true, if_false, Option.some.injEq] at h
    subst h
    exact ⟨rfl, fun _ _ => rfl, fun _ => rfl, fun h => (by cases h)⟩
  · simp only [if_true] at h
    split at h
    · rename_i p v hp hv
      simp only [Option.some.injEq] at h
      subst h
      have hm : m < ps.length := by
        rcases Nat.lt_or_ge m ps.length with h | h
        · exact h
        · rw [List.getElem?_eq_none h] at hp; cases hp
      refine ⟨by simp, fun j hj => (by simp [List.getElem?_set, Ne.symm hj]),
        fun h => (by cases h), fun _ => ⟨p, v, hp, hv, (by simp [List.getElem?_set, hm])⟩⟩
    · cases h

theorem applyMaskLoop_spec {V : Type} (setKTau setBemf : Bool) (kTauVector bemfVector : List V) :
    ∀ (k m : Nat) (ps ps' : List (MotorTorqueParameters V)),
      applyMaskLoop setKTau setBemf kTauVector bemfVector k m ps = some ps' →
      ps'.length = ps.length
      ∧ (∀ j, j < m ∨ m + k ≤ j → ps'[j]? = ps[j]?)
      ∧ (∀ j, m ≤ j → j < m + k → j < ps.length →
          ∃ p q, ps[j]? = some p ∧ ps'[j]? = some q
            ∧ q.bemf_scale = p.bemf_scale ∧ q.ktau_scale = p.ktau_scale
            ∧ (setKTau = true → kTauVector[j]? = some q.ktau)
            ∧ (setKTau = false → q.ktau = p.ktau)
            ∧ (setBemf = true → bemfVector[j]? = some q.bemf)
            ∧ (setBemf = false → q.bemf = p.bemf)) := by
  intro k
  induction k with
  | zero =>
    intro m ps ps' h
    simp only [applyMaskLoop, Option.some.injEq] at h
    subst h
    exact ⟨rfl, fun _ _ => rfl, fun j h1 h2 => by omega⟩
  | succ k ih =>
    intro m ps ps' h
    simp only [applyMaskLoop] at h
    split at h
    · cases h
    rename_i ps1 h1
    split at h
    · cases h
    rename_i ps2 h2
    obtain ⟨hl, hout, hin⟩ := ih _ _ _ h
    obtain ⟨l1, o1, f1, t1⟩ := assignAt_spec _ _ _ _ _ _ h1
    obtain ⟨l2, o2, f2, t2⟩ := assignAt_spec _ _ _ _ _ _ h2
    refine ⟨by rw [hl, l2, l1], ?_, ?_⟩
    · intro j hj
      rw [hout j (by omega), o2 j (by omega), o1 j (by omega)]
    · intro j hj1 hj2 hj3
      by_cases hjm : j = m
      · subst hjm
        obtain ⟨p, hp⟩ : ∃ p, ps[j]? = some p := ⟨ps[j], List.getElem?_eq_getElem hj3⟩
        rw [hout j (by omega)]
        cases setKTau <;> cases setBemf
        · rw [f2 rfl, f1 rfl]
          exact ⟨p, p, hp, hp, rfl, rfl, by simp, by simp, by simp, by simp⟩
        · rw [f1 rfl] at t2
          obtain ⟨p', v, hp', hv, hq⟩ := t2 rfl
          rw [hp] at hp'; cases hp'
          exact ⟨p, _, hp, hq, rfl, rfl, by simp, by simp, by simp [hv], by simp⟩
        · rw [f2 rfl]
          obtain ⟨p', v, hp', hv, hq⟩ := t1 rfl
          rw [hp] at hp'; cases hp'
          exact ⟨p, _, hp, hq, rfl, rfl, by simp [hv], by simp, by simp, by simp⟩
        · obtain ⟨p', v, hp', hv, hq⟩ := t1 rfl
          rw [hp] at hp'; cases hp'
          obtain ⟨p2, v2, hp2, hv2, hq2⟩ := t2 rfl
          rw [hq] at hp2; cases hp2
          exact ⟨p, _, hp, hq2, rfl, rfl, by simp [hv], by simp, by simp [hv2], by simp⟩
      · obtain ⟨p, q, hp, hq, rest⟩ := hin j (by omega) (by omega) (by rw [l2, l1]; exact hj3)
        exact ⟨p, q, by rw [← o1 j hjm, ← o2 j hjm]; exact hp, hq, rest⟩


theorem initialiseDevice_success {V : Type} [Zero V] (g : Globals) (bi : BlockInformation V)
    (ri : RobotInterface) (beh : DeviceBehaviour V) (dev : Device V)
    (kTauVector bemfVector : List V) (s : impl V) (r : Result V)
    (h : initialiseDevice g bi ri beh dev kTauVector bemfVector s = some r)
    (hret : r.ret = true) :
    ri.iPidControl = true ∧ ri.iTorqueControl = true ∧ r.dev = dev
    ∧ r.pImpl.pidValuesDefault = (List.range ri.dofs).map (dev.pids s.controlType)
    ∧ r.pImpl.pidValuesApplied = r.pImpl.pidValuesDefault
    ∧ r.pImpl.motorParamsDefault = (List.range ri.dofs).map dev.motorTorqueParams
    ∧ applyMaskLoop s.setKTau s.setBemf kTauVector bemfVector ri.dofs 0
        r.pImpl.motorParamsDefault = some r.pImpl.motorParamsApplied
    ∧ r.pImpl.controlType = s.controlType ∧ r.pImpl.firstRun = s.firstRun
    ∧ r.pImpl.setP = s.setP ∧ r.pImpl.setI = s.setI ∧ r.pImpl.setD = s.setD
    ∧ r.pImpl.setKTau = s.setKTau ∧ r.pImpl.setBemf = s.setBemf
    ∧ r.calls = [Call.getInterfacePid true, Call.getPids s.controlType true,
        Call.getInterfaceTorque true]
        ++ (List.range' 0 ri.dofs).map (fun j => Call.getMotorTorqueParams j true) := by
  unfold initialiseDevice at h
  simp only at h
  split at h
  · simp only [Option.some.injEq] at h; subst h; cases hret
  rename_i hpid
  split at h
  · cases h
  rename_i okPids buffer hget
  split at h
  · simp only [Option.some.injEq] at h; subst h; cases hret
  rename_i hok
  split at h
  · simp only [Option.some.injEq] at h; subst h; cases hret
  rename_i htrq
  split at h
  · cases h
  rename_i okLoop defaults calls hloop
  split at h
  · simp only [Option.some.injEq] at h; subst h; cases hret
  rename_i hokLoop
  split at h
  · cases h
  rename_i applied hmask
  simp only [Bool.not_eq_true, Bool.not_eq_false_eq_eq_true, Bool.not_eq_eq_eq_not,
    Bool.not_true, Bool.not_false, Bool.not_eq_false] at hpid hok htrq hokLoop
  subst hok hokLoop
  -- the PID buffer
  have hbuf : buffer = (List.range ri.dofs).map (dev.pids s.controlType) := by
    unfold getPids at hget
    simp only [resize_length, Nat.lt_irrefl, if_false] at hget
    split at hget
    · simp only [Option.some.injEq, Prod.mk.injEq, true_and] at hget
      rw [← hget, List.drop_eq_nil_of_le (by rw [resize_length]), List.append_nil]
    · simp at hget
  -- the default torque parameters
  obtain ⟨hin, _, hcalls⟩ := getDefaultsLoop_success _ _ _ _ _ _ _ _ hloop
  have hlen := getDefaultsLoop_length _ _ _ _ _ _ _ _ _ hloop
  simp only [resize_length] at hlen
  have hdef : defaults = (List.range ri.dofs).map dev.motorTorqueParams := by
    apply List.ext_getElem?
    intro j
    by_cases hj : j < ri.dofs
    · rw [hin j (Nat.zero_le _) (by omega)]
      simp [List.getElem?_map, List.getElem?_range hj]
    · rw [List.getElem?_eq_none (by omega), List.getElem?_eq_none (by simp; omega)]
  split at h <;> simp only [Option.some.injEq] at h <;> subst h
  · cases hret
  · simp only [hbuf, hdef, hpid, htrq, hcalls] at hmask ⊢
    simp [hmask]


theorem initialise_success {V : Type} [Zero V] (g : Globals) (wb : WBBlock)
    (bi : BlockInformation V) (ri : RobotInterface) (beh : DeviceBehaviour V)
    (dev : Device V) (s : impl V) (r : Result V)
    (h : initialise g wb bi ri beh dev s = some r) (hret : r.ret = true) :
    ∃ (p : Parameters V) (setP setI setD : Bool) (controlType : String)
      (setKTau setBemf : Bool) (kTauVector bemfVector : List V) (type : PidControlTypeEnum),
      bi.parseParameters = some p ∧ p.SetP = some setP ∧ p.SetI = some setI
      ∧ p.SetD = some setD ∧ p.ControlType = some controlType ∧ p.SetKTau = some setKTau
      ∧ p.SetBemf = some setBemf ∧ p.KTau = some kTauVector ∧ p.Bemf = some bemfVector
      ∧ kTauVector.length = ri.dofs ∧ bemfVector.length = ri.dofs
      ∧ resolveControlType controlType = some type
      ∧ initialiseDevice g bi ri beh dev kTauVector bemfVector
          { s with setP := setP, setI := setI, setD := setD, setKTau := setKTau,
                   setBemf := setBemf, controlType := type } = some r := by
  unfold initialise at h
  split at h
  · simp only [Option.some.injEq] at h; subst h; cases hret
  split at h
  · simp only [Option.some.injEq] at h; subst h; cases hret
  rename_i p hp
  have hparse : bi.parseParameters = some p := by
    unfold parseParameters at hp
    split at hp
    · exact hp
    · cases hp
  simp only at h
  repeat' split at h
  all_goals first
    | (simp only [Option.some.injEq] at h; subst h; cases hret)
    | skip
  rename_i setP _ _ setI _ _ setD _ _ controlType _ _ setKTau _ _ setBemf _ _ kTauVector _ _
    bemfVector _ hlen _ type _
  refine ⟨p, setP, setI, setD, controlType, setKTau, setBemf, kTauVector, bemfVector, type,
    hparse, ?_⟩
  simp only [not_or, not_not] at hlen
  simp_all


theorem gainLoop_length {V : Type} [DecidableEq V] [HasNaN V] (field : Pid V → V)
    (assign : Pid V → V → Pid V) (signal : Signal V) :
    ∀ (ps : List (Pid V)) (i : Nat) (sendPids : Bool),
      (gainLoop field assign signal ps i sendPids).1.length = ps.length := by
  intro ps
  induction ps with
  | nil => intro i sp; rfl
  | cons p ps ih =>
    intro i sp
    simp only [gainLoop]
    split <;> simp [ih]

theorem gainLoop_getElem? {V : Type} [DecidableEq V] [HasNaN V] (field : Pid V → V)
    (assign : Pid V → V → Pid V) (signal : Signal V)
    (hlaw : ∀ p, assign p (field p) = p) :
    ∀ (ps : List (Pid V)) (i : Nat) (sendPids : Bool) (j : Nat),
      (gainLoop field assign signal ps i sendPids).1[j]?
        = (ps[j]?).map (fun p => assign p (signal.get (i + j))) := by
  intro ps
  induction ps with
  | nil => intro i sp j; simp [gainLoop]
  | cons p ps ih =>
    intro i sp j
    simp only [gainLoop]
    split
    · cases j with
      | zero => simp
      | succ j => simp [ih, Nat.add_assoc, Nat.add_comm 1 j]
    · rename_i hne
      have heq := eq_of_doubleNe_false _ _ hne
      cases j with
      | zero => simp [← heq, hlaw]
      | succ j => simp [ih, Nat.add_assoc, Nat.add_comm 1 j]

theorem gainLoop_sendPids {V : Type} [DecidableEq V] [HasNaN V] (field : Pid V → V)
    (assign : Pid V → V → Pid V) (signal : Signal V) :
    ∀ (ps : List (Pid V)) (i : Nat) (sendPids : Bool),
      (gainLoop field assign signal ps i sendPids).2 = true
        ↔ (sendPids = true
          ∨ ∃ j p, ps[j]? = some p ∧ doubleNe (field p) (signal.get (i + j)) = true) := by
  intro ps
  induction ps with
  | nil => intro i sp; simp [gainLoop]
  | cons p ps ih =>
    intro i sp
    simp only [gainLoop]
    split
    · rename_i hne
      simp only [ih, true_or, true_iff]
      exact Or.inr ⟨0, p, by simp, hne⟩
    · rename_i heq
      simp only [ih]
      constructor
      · rintro (h | ⟨j, q, hq, hne⟩)
        · exact Or.inl h
        · exact Or.inr ⟨j + 1, q, by simpa using hq,
            by simpa [Nat.add_assoc, Nat.add_comm 1 j] using hne⟩
      · rintro (h | ⟨j, q, hq, hne⟩)
        · exact Or.inl h
        · cases j with
          | zero =>
            simp only [List.getElem?_cons_zero, Option.some.injEq] at hq
            subst hq
            exact absurd hne heq
          | succ j =>
            exact Or.inr ⟨j, q, by simpa using hq,
              by simpa [Nat.add_assoc, Nat.add_comm 1 j] using hne⟩

theorem readGains_length {V : Type} [DecidableEq V] [HasNaN V] (g : Globals) (bi : BlockInformation V)
    (s : impl V) : (readGains g bi s).1.length = s.pidValuesApplied.length := by
  unfold readGains
  cases s.setP <;> cases s.setI <;> cases s.setD <;> simp [gainLoop_length]

theorem readGains_getElem? {V : Type} [DecidableEq V] [HasNaN V] (g : Globals) (bi : BlockInformation V)
    (s : impl V) (j : Nat) :
    (readGains g bi s).1[j]? = (s.pidValuesApplied[j]?).map (fun p =>
      { p with
        kp := if s.setP then (bi.getInputPortSignal g.InputIndex_PGains).get j else p.kp,
        ki := if s.setI then (bi.getInputPortSignal g.InputIndex_IGains).get j else p.ki,
        kd := if s.setD then (bi.getInputPortSignal g.InputIndex_DGains).get j else p.kd }) := by
  unfold readGains
  cases s.setP <;> cases s.setI <;> cases s.setD <;>
    simp [gainLoop_getElem?] <;> cases s.pidValuesApplied[j]? <;> simp

theorem readGains_sendPids {V : Type} [DecidableEq V] [HasNaN V] (g : Globals)
    (bi : BlockInformation V) (s : impl V) :
    (readGains g bi s).2 = true ↔
      ((s.setP = true ∧ ∃ i p, s.pidValuesApplied[i]? = some p
          ∧ doubleNe p.kp ((bi.getInputPortSignal g.InputIndex_PGains).get i) = true)
      ∨ (s.setI = true ∧ ∃ i p, s.pidValuesApplied[i]? = some p
          ∧ doubleNe p.ki ((bi.getInputPortSignal g.InputIndex_IGains).get i) = true)
      ∨ (s.setD = true ∧ ∃ i p, s.pidValuesApplied[i]? = some p
          ∧ doubleNe p.kd ((bi.getInputPortSignal g.InputIndex_DGains).get i) = true)) := by
  unfold readGains
  cases s.setP <;> cases s.setI <;> cases s.setD <;>
    simp [gainLoop_sendPids, gainLoop_getElem?, or_assoc]

theorem setParamsLoop_total {V : Type} (beh : DeviceBehaviour V)
    (params : List (MotorTorqueParameters V)) :
    ∀ (k m : Nat) (dev : Device V) (cs : List (Call V)),
      m + k ≤ params.length → ∃ r, setParamsLoop beh params k m dev cs = some r := by
  intro k
  induction k with
  | zero => intro m dev cs _; exact ⟨_, rfl⟩
  | succ k ih =>
    intro m dev cs h
    simp only [setParamsLoop]
    have hm : m < params.length := by omega
    rw [List.getElem?_eq_getElem hm]
    simp only
    split
    · exact ih _ _ _ (by omega)
    · exact ⟨_, rfl⟩

theorem setParamsLoop_frame {V : Type} (beh : DeviceBehaviour V)
    (params : List (MotorTorqueParameters V)) :
    ∀ (k m : Nat) (dev dev' : Device V) (cs cs' : List (Call V)),
      setParamsLoop beh params k m dev cs = some (dev', cs') →
      dev'.pids = dev.pids
      ∧ ∃ extra, cs' = cs ++ extra ∧ ∀ c ∈ extra, c.isSetMotorTorqueParams = true := by
  intro k
  induction k with
  | zero =>
    intro m dev dev' cs cs' h
    simp only [setParamsLoop, Option.some.injEq, Prod.mk.injEq] at h
    exact ⟨by rw [h.1], [], by simp [h.2], by simp⟩
  | succ k ih =>
    intro m dev dev' cs cs' h
    simp only [setParamsLoop] at h
    split at h
    · cases h
    rename_i p hp
    simp only [setMotorTorqueParams] at h
    by_cases hok : beh.setMotorTorqueParams m p = true
    · simp only [hok, if_true] at h
      obtain ⟨h1, extra, h2, h3⟩ := ih _ _ _ _ _ h
      refine ⟨h1, Call.setMotorTorqueParams m p true :: extra, by simp [h2], ?_⟩
      intro c hc
      rcases List.mem_cons.1 hc with rfl | hc
      · rfl
      · exact h3 c hc
    · simp only [hok, Bool.false_eq_true, if_false, Option.some.injEq, Prod.mk.injEq] at h
      refine ⟨by rw [← h.1], [Call.setMotorTorqueParams m p false], h.2.symm, ?_⟩
      intro c hc
      simp only [List.mem_singleton] at hc
      subst hc
      rfl

theorem setParamsLoop_success {V : Type} (beh : DeviceBehaviour V)
    (params : List (MotorTorqueParameters V))
    (hbeh : ∀ m p, beh.setMotorTorqueParams m p = true) :
    ∀ (k m : Nat) (dev dev' : Device V) (cs cs' : List (Call V)),
      setParamsLoop beh params k m dev cs = some (dev', cs') →
      (∀ j, m ≤ j → j < m + k → params[j]? = some (dev'.motorTorqueParams j))
      ∧ (∀ j, j < m ∨ m + k ≤ j → dev'.motorTorqueParams j = dev.motorTorqueParams j) := by
  intro k
  induction k with
  | zero =>
    intro m dev dev' cs cs' h
    simp only [setParamsLoop, Option.some.injEq, Prod.mk.injEq] at h
    exact ⟨fun j h1 h2 => by omega, fun j _ => by rw [h.1]⟩
  | succ k ih =>
    intro m dev dev' cs cs' h
    simp only [setParamsLoop] at h
    split at h
    · cases h
    rename_i p hp
    simp only [setMotorTorqueParams, hbeh, if_true] at h
    obtain ⟨h1, h2⟩ := ih _ _ _ _ _ h
    refine ⟨?_, ?_⟩
    · intro j hj1 hj2
      by_cases hjm : j = m
      · subst hjm
        rw [h2 j (by omega), hp]
        simp
      · exact h1 j (by omega) (by omega)
    · intro j hj
      rw [h2 j (by omega)]
      have : ¬ j = m := by omega
      simp [this]

theorem firstRunBlock_spec {V : Type} (ri : RobotInterface) (beh : DeviceBehaviour V)
    (dev : Device V) (s : impl V) (htrq : ri.iTorqueControl = true)
    (hlen : ri.dofs ≤ s.motorParamsApplied.length) :
    ∃ dev1 calls1, firstRunBlock ri beh dev s
        = some (true, { s with firstRun := false }, dev1, calls1)
      ∧ dev1.pids = dev.pids
      ∧ (∀ c ∈ calls1, c.isSetPids = false)
      ∧ (s.firstRun = false → dev1 = dev ∧ calls1 = []) := by
  unfold firstRunBlock
  by_cases hf : s.firstRun = true
  · simp only [hf, if_true, htrq, Bool.not_true, Bool.false_eq_true, if_false]
    obtain ⟨⟨dev1, calls1⟩, hr⟩ := setParamsLoop_total beh s.motorParamsApplied ri.dofs 0 dev
      [Call.getInterfaceTorque true] (by omega)
    obtain ⟨hp, extra, he, hx⟩ := setParamsLoop_frame _ _ _ _ _ _ _ _ hr
    rw [hr]
    refine ⟨dev1, calls1, rfl, hp, ?_, fun h => by simp [hf] at h⟩
    intro c hc
    rw [he] at hc
    rcases List.mem_append.1 hc with hc | hc
    · simp only [List.mem_singleton] at hc
      subst hc
      rfl
    · have := hx c hc
      cases c <;> simp_all [Call.isSetPids, Call.isSetMotorTorqueParams]
  · simp only [Bool.not_eq_true] at hf
    simp only [hf, Bool.false_eq_true, if_false]
    refine ⟨dev, [], ?_, rfl, by simp, fun _ => ⟨rfl, rfl⟩⟩
    cases s
    simp_all


theorem output_spec {V : Type} [DecidableEq V] [HasNaN V] (g : Globals) (bi : BlockInformation V)
    (ri : RobotInterface) (beh : DeviceBehaviour V) (dev : Device V) (s : impl V)
    (hs : Sized ri s) :
    ∃ r calls1, output g bi ri beh dev s = some r
      ∧ r.pImpl = { s with firstRun := false, pidValuesApplied := (readGains g bi s).1 }
      ∧ (∀ c ∈ calls1, c.isSetPids = false)
      ∧ r.calls = calls1 ++
          (if (readGains g bi s).2 then
            [Call.getInterfacePid true,
             Call.setPids s.controlType (readGains g bi s).1
               (beh.setPids s.controlType (readGains g bi s).1)]
          else [])
      ∧ r.ret = (if (readGains g bi s).2 then beh.setPids s.controlType (readGains g bi s).1
          else true) := by
  obtain ⟨hpid, htrq, _, hA, _, hM⟩ := hs
  obtain ⟨dev1, calls1, hfirst, _, hcalls, _⟩ :=
    firstRunBlock_spec ri beh dev s htrq (by omega)
  have hrg : readGains g bi { s with firstRun := false } = readGains g bi s := rfl
  have hlen : (readGains g bi s).1.length = ri.dofs := by rw [readGains_length, hA]
  have htake : List.take ri.dofs (readGains g bi s).1 = (readGains g bi s).1 :=
    List.take_of_length_le (by omega)
  unfold output
  rw [hfirst]
  simp only [hrg]
  by_cases hsend : (readGains g bi s).2 = true
  · simp only [hsend, if_true, hpid, Bool.not_true, Bool.false_eq_true, if_false]
    unfold setPids
    simp only [hlen, Nat.lt_irrefl, if_false, htake]
    by_cases hok : beh.setPids s.controlType (readGains g bi s).1 = true
    · simp only [hok, if_true]
      exact ⟨_, calls1, rfl, rfl, hcalls, by simp, rfl⟩
    · simp only [Bool.not_eq_true] at hok
      simp only [hok, Bool.false_eq_true, if_false]
      exact ⟨_, calls1, rfl, rfl, hcalls, by simp, rfl⟩
  · simp only [Bool.not_eq_true] at hsend
    simp only [hsend, Bool.false_eq_true, if_false]
    exact ⟨_, calls1, rfl, rfl, hcalls, by simp, rfl⟩

theorem output_sized {V : Type} [DecidableEq V] [HasNaN V] (g : Globals) (bi : BlockInformation V)
    (ri : RobotInterface) (beh : DeviceBehaviour V) (dev : Device V) (s : impl V)
    (r : Result V) (hs : Sized ri s) (h : output g bi ri beh dev s = some r) :
    Sized ri r.pImpl ∧ r.pImpl.pidValuesDefault = s.pidValuesDefault
      ∧ r.pImpl.motorParamsDefault = s.motorParamsDefault
      ∧ r.pImpl.motorParamsApplied = s.motorParamsApplied
      ∧ r.pImpl.controlType = s.controlType
      ∧ r.pImpl.setP = s.setP ∧ r.pImpl.setI = s.setI ∧ r.pImpl.setD = s.setD := by
  obtain ⟨r', _, h', himpl, _⟩ := output_spec g bi ri beh dev s hs
  rw [h] at h'
  cases h'
  obtain ⟨hpid, htrq, hD, hA, hMD, hMA⟩ := hs
  rw [himpl]
  refine ⟨⟨hpid, htrq, hD, ?_, hMD, hMA⟩, rfl, rfl, rfl, rfl, rfl, rfl, rfl⟩
  simp only [readGains_length, hA]

theorem runOutputs_sized {V : Type} [DecidableEq V] [HasNaN V] (ri : RobotInterface) :
    ∀ (steps : List (Step V)) (s : impl V) (dev : Device V), Sized ri s →
      ∃ s' dev', runOutputs ri steps s dev = some (s', dev') ∧ Sized ri s'
        ∧ s'.pidValuesDefault = s.pidValuesDefault
        ∧ s'.motorParamsDefault = s.motorParamsDefault
        ∧ s'.motorParamsApplied = s.motorParamsApplied
        ∧ s'.controlType = s.controlType
        ∧ s'.setP = s.setP ∧ s'.setI = s.setI ∧ s'.setD = s.setD := by
  intro steps
  induction steps with
  | nil => intro s dev hs; exact ⟨s, dev, rfl, hs, rfl, rfl, rfl, rfl, rfl, rfl, rfl⟩
  | cons st rest ih =>
    intro s dev hs
    obtain ⟨r, _, hr, _⟩ := output_spec st.g st.bi ri st.beh dev s hs
    obtain ⟨hs1, e1, e2, e3, e4, e5, e6, e7⟩ := output_sized _ _ _ _ _ _ _ hs hr
    obtain ⟨s', dev', hrun, hs', f1, f2, f3, f4, f5, f6, f7⟩ := ih r.pImpl r.dev hs1
    refine ⟨s', dev', ?_, hs', ?_, ?_, ?_, ?_, ?_, ?_, ?_⟩
    · simp only [runOutputs, hr, hrun]
    · rw [f1, e1]
    · rw [f2, e2]
    · rw [f3, e3]
    · rw [f4, e4]
    · rw [f5, e5]
    · rw [f6, e6]
    · rw [f7, e7]

theorem initialise_sized {V : Type} [Zero V] (g : Globals) (wb : WBBlock)
    (bi : BlockInformation V) (ri : RobotInterface) (beh : DeviceBehaviour V)
    (dev : Device V) (s : impl V) (r : Result V)
    (h : initialise g wb bi ri beh dev s = some r) (hret : r.ret = true) :
    Sized ri r.pImpl := by
  obtain ⟨p, setP, setI, setD, ct, setKTau, setBemf, kTau, bemf, type, _, _, _, _, _, _, _,
    _, _, _, _, _, hdev⟩ := initialise_success g wb bi ri beh dev s r h hret
  obtain ⟨hpid, htrq, _, hD, hA, hMD, hMA, _⟩ :=
    initialiseDevice_success _ _ _ _ _ _ _ _ _ hdev hret
  obtain ⟨hl, _⟩ := applyMaskLoop_spec _ _ _ _ _ _ _ _ hMA
  refine ⟨hpid, htrq, ?_, ?_, ?_, ?_⟩
  · rw [hD]; simp
  · rw [hA, hD]; simp
  · rw [hMD]; simp
  · rw [hl, hMD]; simp

theorem initialized_sized {V : Type} [DecidableEq V] [HasNaN V] [Zero V] (ri : RobotInterface)
    (s : impl V) (dev : Device V) (h : Initialized ri s dev) : Sized ri s := by
  obtain ⟨g, wb, bi, beh, dev0, s0, r0, steps, hinit, hret, hrun⟩ := h
  have h0 := initialise_sized g wb bi ri beh dev0 s0 r0 hinit hret
  obtain ⟨s', dev', hrun', hs', _⟩ := runOutputs_sized ri steps r0.pImpl r0.dev h0
  rw [hrun] at hrun'
  cases hrun'
  exact hs'


theorem terminate_spec {V : Type} (wb : WBBlock) (ri : RobotInterface)
    (beh : DeviceBehaviour V) (dev : Device V) (s : impl V) (hs : Sized ri s)
    (hsetPids : ∀ t l, beh.setPids t l = true)
    (hsetParams : ∀ m p, beh.setMotorTorqueParams m p = true) :
    ∃ r, terminate wb ri beh dev s = some r ∧ r.ret = wb.terminate ∧ r.pImpl = s
      ∧ ∀ j, j < ri.dofs →
          s.pidValuesDefault[j]? = some (r.dev.pids s.controlType j)
          ∧ s.motorParamsDefault[j]? = some (r.dev.motorTorqueParams j) := by
  obtain ⟨hpid, htrq, hD, _, hMD, _⟩ := hs
  unfold terminate
  simp only [hpid, htrq, Bool.not_true, Bool.false_eq_true, if_false]
  unfold setPids
  simp only [hD, Nat.lt_irrefl, if_false, hsetPids, if_true]
  obtain ⟨⟨dev2, calls2⟩, hloop⟩ := setParamsLoop_total beh s.motorParamsDefault ri.dofs 0
    { dev with pids := fun t j =>
        if t = s.controlType ∧ j < ri.dofs then (s.pidValuesDefault[j]?).getD (dev.pids t j)
        else dev.pids t j }
    ([Call.getInterfacePid true] ++ [Call.setPids s.controlType
      (List.take ri.dofs s.pidValuesDefault) true] ++ [Call.getInterfaceTorque true])
    (by omega)
  obtain ⟨hp, _⟩ := setParamsLoop_frame _ _ _ _ _ _ _ _ hloop
  obtain ⟨hin, _⟩ := setParamsLoop_success beh _ hsetParams _ _ _ _ _ _ hloop
  rw [hloop]
  refine ⟨_, rfl, rfl, rfl, ?_⟩
  intro j hj
  refine ⟨?_, hin j (Nat.zero_le _) (by omega)⟩
  simp only [hp, hj, and_self, if_true]
  rw [List.getElem?_eq_getElem (by omega)]
  rfl


theorem initialise_records {V : Type} [Zero V] (g : Globals) (wb : WBBlock)
    (bi : BlockInformation V) (ri : RobotInterface) (beh : DeviceBehaviour V)
    (dev : Device V) (s : impl V) (r : Result V)
    (h : initialise g wb bi ri beh dev s = some r) (hret : r.ret = true) :
    r.pImpl.pidValuesApplied = r.pImpl.pidValuesDefault
    ∧ r.pImpl.pidValuesDefault.length = ri.dofs
    ∧ (∀ m, m < ri.dofs →
        r.pImpl.pidValuesDefault[m]? = some (dev.pids r.pImpl.controlType m))
    ∧ r.pImpl.motorParamsDefault.length = ri.dofs
    ∧ r.pImpl.motorParamsApplied.length = ri.dofs
    ∧ ∃ (p : Parameters V) (setKTau setBemf : Bool) (kTauVector bemfVector : List V),
        bi.parseParameters = some p ∧ p.SetKTau = some setKTau ∧ p.SetBemf = some setBemf
        ∧ p.KTau = some kTauVector ∧ p.Bemf = some bemfVector
        ∧ ∀ m, m < ri.dofs →
          ∃ d a, r.pImpl.motorParamsDefault[m]? = some d
            ∧ r.pImpl.motorParamsApplied[m]? = some a
            ∧ d = dev.motorTorqueParams m
            ∧ a.bemf_scale = d.bemf_scale ∧ a.ktau_scale = d.ktau_scale
            ∧ (setKTau = true → kTauVector[m]? = some a.ktau)
            ∧ (setKTau = false → a.ktau = d.ktau)
            ∧ (setBemf = true → bemfVector[m]? = some a.bemf)
            ∧ (setBemf = false → a.bemf = d.bemf) := by
  obtain ⟨p, setP, setI, setD, ct, setKTau, setBemf, kTau, bemf, type, hparse, _, _, _, _,
    hK, hB, hKT, hBF, _, _, _, hdev⟩ := initialise_success g wb bi ri beh dev s r h hret
  obtain ⟨_, _, _, hD, hA, hMD, hMA, hct, _⟩ :=
    initialiseDevice_success _ _ _ _ _ _ _ _ _ hdev hret
  obtain ⟨hl, _, hin⟩ := applyMaskLoop_spec _ _ _ _ _ _ _ _ hMA
  have hMDlen : r.pImpl.motorParamsDefault.length = ri.dofs := by rw [hMD]; simp
  refine ⟨hA, by rw [hD]; simp, ?_, hMDlen, by rw [hl, hMDlen], ?_⟩
  · intro m hm
    rw [hD, hct]
    simp [List.getElem?_map, List.getElem?_range hm]
  · refine ⟨p, setKTau, setBemf, kTau, bemf, hparse, hK, hB, hKT, hBF, ?_⟩
    intro m hm
    obtain ⟨d, a, hd, ha, rest⟩ := hin m (Nat.zero_le _) (by omega) (by omega)
    refine ⟨d, a, hd, ha, ?_, rest⟩
    rw [hMD] at hd
    simp [List.getElem?_map, List.getElem?_range hm] at hd
    exact hd.symm


theorem initialise_calls_ok {V : Type} [Zero V] (g : Globals) (wb : WBBlock)
    (bi : BlockInformation V) (ri : RobotInterface) (beh : DeviceBehaviour V)
    (dev : Device V) (s : impl V) (r : Result V)
    (h : initialise g wb bi ri beh dev s = some r) (hret : r.ret = true) :
    ∀ c ∈ r.calls, c.ok = true := by
  obtain ⟨p, setP, setI, setD, ct, setKTau, setBemf, kTau, bemf, type, _, _, _, _, _, _, _,
    _, _, _, _, _, hdev⟩ := initialise_success g wb bi ri beh dev s r h hret
  obtain ⟨_, _, _, _, _, _, _, _, _, _, _, _, _, _, hcalls⟩ :=
    initialiseDevice_success _ _ _ _ _ _ _ _ _ hdev hret
  intro c hc
  rw [hcalls] at hc
  simp only [List.cons_append, List.nil_append, List.mem_cons, List.mem_map] at hc
  rcases hc with rfl | rfl | rfl | ⟨j, _, rfl⟩ <;> rfl

theorem firstRunBlock_calls {V : Type} (ri : RobotInterface) (beh : DeviceBehaviour V)
    (dev : Device V) (s : impl V) (b : Bool) (s1 : impl V) (dev1 : Device V)
    (calls1 : List (Call V)) (h : firstRunBlock ri beh dev s = some (b, s1, dev1, calls1)) :
    ∀ c ∈ calls1, c.isDeviceCall = true → c.isSetMotorTorqueParams = true := by
  unfold firstRunBlock at h
  split at h
  · simp only at h
    split at h
    · simp only [Option.some.injEq, Prod.mk.injEq] at h
      obtain ⟨_, _, _, rfl⟩ := h
      intro c hc hd
      simp only [List.mem_singleton] at hc
      subst hc
      cases hd
    · split at h
      · cases h
      rename_i dev2 calls2 hloop
      simp only [Option.some.injEq, Prod.mk.injEq] at h
      obtain ⟨_, _, _, rfl⟩ := h
      obtain ⟨_, extra, he, hx⟩ := setParamsLoop_frame _ _ _ _ _ _ _ _ hloop
      intro c hc hd
      rw [he] at hc
      rcases List.mem_append.1 hc with hc | hc
      · simp only [List.mem_singleton] at hc
        subst hc
        cases hd
      · exact hx c hc
  · simp only [Option.some.injEq, Prod.mk.injEq] at h
    obtain ⟨_, _, _, rfl⟩ := h
    intro c hc
    cases hc

theorem output_calls_ok {V : Type} [DecidableEq V] [HasNaN V] (g : Globals) (bi : BlockInformation V)
    (ri : RobotInterface) (beh : DeviceBehaviour V) (dev : Device V) (s : impl V)
    (r : Result V) (h : output g bi ri beh dev s = some r) (hret : r.ret = true) :
    ∀ c ∈ r.calls, c.isDeviceCall = true → c.isSetMotorTorqueParams = false →
      c.ok = true := by
  unfold output at h
  split at h
  · cases h
  · simp only [Option.some.injEq] at h; subst h; cases hret
  rename_i s1 dev1 calls1 hfirst
  have hc1 := firstRunBlock_calls _ _ _ _ _ _ _ _ hfirst
  simp only at h
  split at h
  · split at h
    · simp only [Option.some.injEq] at h; subst h; cases hret
    split at h
    · cases h
    rename_i okPids dev2 hset
    split at h
    · simp only [Option.some.injEq] at h; subst h; cases hret
    rename_i hok
    simp only [Bool.not_eq_true, Bool.not_eq_false, Bool.not_eq_eq_eq_not, Bool.not_false,
      Bool.not_true] at hok
    simp only [Option.some.injEq] at h
    subst h hok
    intro c hc hd hn
    simp only [List.append_assoc, List.mem_append, List.mem_singleton] at hc
    rcases hc with hc | rfl | rfl
    · rw [hc1 c hc hd] at hn; cases hn
    · cases hd
    · rfl
  · simp only [Option.some.injEq] at h
    subst h
    intro c hc hd hn
    rw [hc1 c hc hd] at hn
    cases hn

theorem terminate_calls_ok {V : Type} (wb : WBBlock) (ri : RobotInterface)
    (beh : DeviceBehaviour V) (dev : Device V) (s : impl V) (r : Result V)
    (h : terminate wb ri beh dev s = some r) (hret : r.ret = true) :
    ∀ c ∈ r.calls, c.isDeviceCall = true → c.isSetMotorTorqueParams = false →
      c.ok = true := by
  unfold terminate at h
  simp only at h
  split at h
  · simp only [Option.some.injEq] at h; subst h; cases hret
  split at h
  · cases h
  rename_i okPids dev1 hset
  split at h
  · simp only [Option.some.injEq] at h; subst h; cases hret
  rename_i hok
  simp only [Bool.not_eq_true, Bool.not_eq_false, Bool.not_eq_eq_eq_not, Bool.not_false,
    Bool.not_true] at hok
  subst hok
  split at h
  · simp only [Option.some.injEq] at h; subst h; cases hret
  split at h
  · cases h
  rename_i dev2 calls2 hloop
  obtain ⟨_, extra, he, hx⟩ := setParamsLoop_frame _ _ _ _ _ _ _ _ hloop
  simp only [Option.some.injEq] at h
  subst h
  intro c hc hd hn
  simp only at hc
  rw [he] at hc
  simp only [List.append_assoc, List.mem_append, List.mem_singleton] at hc
  rcases hc with rfl | rfl | rfl | hc
  · cases hd
  · rfl
  · cases hd
  · rw [hx c hc] at hn; cases hn

theorem scenarioStart_initialized :
    Initialized (exampleRobot 2) scenarioStart.pImpl scenarioStart.dev :=
  ⟨scenarioGlobals, exampleWBBlock, scenarioBlock [], exampleBehaviour true true true true,
    exampleDevice, SetMotorParameters.new, scenarioStart, [], rfl, rfl, rfl⟩

theorem scenarioStep_valid (pGains : List Int) :
    ValidInputs scenarioStart.pImpl (scenarioStep pGains) :=
  ⟨fun _ => rfl, fun h => (by cases h), fun h => (by cases h)⟩
/-! ## The claims -/

/-- C4: when `initialize` succeeds, the applied PID record equals the default one (which
holds the `dofs` records read from the device); the default and applied torque records
both have length `dofs`; and for every joint `m` the applied torque record equals the
default one (the record read from the device) in every field, except that `ktau` is
`KTau[m]` when `SetKTau` is true and `bemf` is `Bemf[m]` when `SetBemf` is true. -/
theorem initialise_applied_records {V : Type} [Zero V] (g : Globals) (wb : WBBlock)
    (bi : BlockInformation V) (ri : RobotInterface) (beh : DeviceBehaviour V)
    (dev : Device V) (s : impl V) (r : Result V)
    (h : initialise g wb bi ri beh dev s = some r) (hret : r.ret = true) :
    r.pImpl.pidValuesApplied = r.pImpl.pidValuesDefault
    ∧ r.pImpl.pidValuesDefault.length = ri.dofs
    ∧ (∀ m, m < ri.dofs →
        r.pImpl.pidValuesDefault[m]? = some (dev.pids r.pImpl.controlType m))
    ∧ r.pImpl.motorParamsDefault.length = ri.dofs
    ∧ r.pImpl.motorParamsApplied.length = ri.dofs
    ∧ ∃ (p : Parameters V) (setKTau setBemf : Bool) (kTauVector bemfVector : List V),
        bi.parseParameters = some p ∧ p.SetKTau = some setKTau ∧ p.SetBemf = some setBemf
        ∧ p.KTau = some kTauVector ∧ p.Bemf = some bemfVector
        ∧ ∀ m, m < ri.dofs →
          ∃ d a, r.pImpl.motorParamsDefault[m]? = some d
            ∧ r.pImpl.motorParamsApplied[m]? = some a
            ∧ d = dev.motorTorqueParams m
            ∧ a.bemf_scale = d.bemf_scale ∧ a.ktau_scale = d.ktau_scale
            ∧ (setKTau = true → kTauVector[m]? = some a.ktau)
            ∧ (setKTau = false → a.ktau = d.ktau)
            ∧ (setBemf = true → bemfVector[m]? = some a.bemf)
            ∧ (setBemf = false → a.bemf = d.bemf) :=
  initialise_records g wb bi ri beh dev s r h hret

/-- C3: when `initialize` succeeds, any sequence of `output` calls follows, and `terminate`
runs against a device whose writes succeed, then after `terminate` the PID record of the
selected control type of every joint is the one captured as default by `initialize`,
and the motor torque parameters of every joint are those captured as default (both being
the values the device held when `initialize` ran). -/
theorem terminate_restores_defaults {V : Type} [DecidableEq V] [HasNaN V] [Zero V] (g : Globals)
    (wb : WBBlock) (bi : BlockInformation V) (ri : RobotInterface)
    (beh : DeviceBehaviour V) (dev0 : Device V) (s0 : impl V) (r0 : Result V)
    (steps : List (Step V)) (wbT : WBBlock) (behT : DeviceBehaviour V)
    (hinit : initialise g wb bi ri beh dev0 s0 = some r0) (hret : r0.ret = true)
    (hsetPids : ∀ t l, behT.setPids t l = true)
    (hsetParams : ∀ m p, behT.setMotorTorqueParams m p = true) :
    ∃ s dev rT, runOutputs ri steps r0.pImpl r0.dev = some (s, dev)
      ∧ terminate wbT ri behT dev s = some rT
      ∧ ∀ j, j < ri.dofs →
          r0.pImpl.pidValuesDefault[j]? = some (rT.dev.pids r0.pImpl.controlType j)
          ∧ r0.pImpl.motorParamsDefault[j]? = some (rT.dev.motorTorqueParams j)
          ∧ rT.dev.pids r0.pImpl.controlType j = dev0.pids r0.pImpl.controlType j
          ∧ rT.dev.motorTorqueParams j = dev0.motorTorqueParams j := by
  have h0 := initialise_sized g wb bi ri beh dev0 s0 r0 hinit hret
  obtain ⟨s, dev, hrun, hs, e1, e2, _, e4, _⟩ := runOutputs_sized ri steps r0.pImpl r0.dev h0
  obtain ⟨rT, hT, _, _, hrest⟩ := terminate_spec wbT ri behT dev s hs hsetPids hsetParams
  obtain ⟨_, _, hcap, _, _, p, k, b, kv, bv, _, _, _, _, _, hmot⟩ :=
    initialise_records g wb bi ri beh dev0 s0 r0 hinit hret
  refine ⟨s, dev, rT, hrun, hT, ?_⟩
  intro j hj
  obtain ⟨h1, h2⟩ := hrest j hj
  rw [e1, e4] at h1
  rw [e2] at h2
  obtain ⟨d, a, hd, _, hdev, _⟩ := hmot j hj
  refine ⟨h1, h2, ?_, ?_⟩
  · have := hcap j hj
    rw [h1] at this
    exact Option.some.inj this
  · rw [hd] at h2
    rw [← Option.some.inj h2, hdev]


/-- C2, as amended: for a successfully initialized block and an `output` step with valid
input signals, the step makes exactly one `setPids` call if, for some enabled channel and
some joint, the input value compares unequal (`!=`, which is also true when either value
is NaN) to the applied value, and makes none otherwise; and when the next step (also with
valid inputs) carries the same input vector on every enabled channel and that vector
holds no NaN, that next step makes no `setPids` call. -/
theorem output_pid_write_iff_changed {V : Type} [DecidableEq V] [HasNaN V] [Zero V]
    (ri : RobotInterface) (s : impl V) (dev : Device V) (st1 st2 : Step V)
    (hinit : Initialized ri s dev) (hv1 : ValidInputs s st1) (hv2 : ValidInputs s st2) :
    ∃ r1 r2, output st1.g st1.bi ri st1.beh dev s = some r1
      ∧ output st2.g st2.bi ri st2.beh r1.dev r1.pImpl = some r2
      ∧ (GainsDiffer s st1 → pidWrites r1.calls = 1)
      ∧ (¬ GainsDiffer s st1 → pidWrites r1.calls = 0)
      ∧ (SameInputs ri s st1 st2 → NoNaNInputs ri s st1 → pidWrites r2.calls = 0) := by
  have hs := initialized_sized ri s dev hinit
  have count : ∀ (g : Globals) (bi : BlockInformation V) (beh : DeviceBehaviour V)
      (d : Device V) (s' : impl V) (r : Result V), Sized ri s' →
      output g bi ri beh d s' = some r →
      pidWrites r.calls = if (readGains g bi s').2 then 1 else 0 := by
    intro g bi beh d s' r hs' hr
    obtain ⟨r', calls1, hr', _, hno, hcalls, _⟩ := output_spec g bi ri beh d s' hs'
    rw [hr] at hr'
    cases hr'
    have hfil : calls1.filter Call.isSetPids = [] := by
      rw [List.filter_eq_nil_iff]
      intro c hc
      simp [hno c hc]
    unfold pidWrites
    rw [hcalls, List.filter_append, hfil]
    split <;> simp [Call.isSetPids]
  obtain ⟨r1, _, hr1, himpl1, _⟩ := output_spec st1.g st1.bi ri st1.beh dev s hs
  obtain ⟨hs1, _⟩ := output_sized _ _ _ _ _ _ _ hs hr1
  obtain ⟨r2, _, hr2, _⟩ := output_spec st2.g st2.bi ri st2.beh r1.dev r1.pImpl hs1
  have hdiff1 : (readGains st1.g st1.bi s).2 = true ↔ GainsDiffer s st1 :=
    readGains_sendPids st1.g st1.bi s
  refine ⟨r1, r2, hr1, hr2, ?_, ?_, ?_⟩
  · intro hd
    rw [count _ _ _ _ _ _ hs hr1, if_pos (hdiff1.2 hd)]
  · intro hd
    rw [count _ _ _ _ _ _ hs hr1, if_neg (fun h => hd (hdiff1.1 h))]
  · intro hsame hnan
    rw [count _ _ _ _ _ _ hs1 hr2, if_neg]
    intro hsend
    have hlen : s.pidValuesApplied.length = ri.dofs := hs.2.2.2.1
    have key : ∀ i q, r1.pImpl.pidValuesApplied[i]? = some q →
        i < ri.dofs ∧ ∃ p, s.pidValuesApplied[i]? = some p ∧ q =
          { p with
            kp := if s.setP then st1.pGainsSignal.get i else p.kp,
            ki := if s.setI then st1.iGainsSignal.get i else p.ki,
            kd := if s.setD then st1.dGainsSignal.get i else p.kd } := by
      intro i q hq
      rw [himpl1] at hq
      simp only [readGains_getElem?] at hq
      cases hp : s.pidValuesApplied[i]? with
      | none => rw [hp] at hq; cases hq
      | some p =>
        rw [hp] at hq
        have hi : i < s.pidValuesApplied.length := by
          rcases Nat.lt_or_ge i s.pidValuesApplied.length with h | h
          · exact h
          · rw [List.getElem?_eq_none h] at hp; cases hp
        exact ⟨by omega, p, rfl, (Option.some.inj hq).symm⟩
    have hflags : r1.pImpl.setP = s.setP ∧ r1.pImpl.setI = s.setI ∧ r1.pImpl.setD = s.setD := by
      rw [himpl1]; exact ⟨rfl, rfl, rfl⟩
    have refl_false : ∀ (a b : V), b = a → HasNaN.isNaN a = false → doubleNe a b ≠ true := by
      intro a b hab ha
      subst hab
      rw [(doubleNe_eq_false b b).2 ⟨ha, ha, rfl⟩]
      exact Bool.false_ne_true
    rcases (readGains_sendPids st2.g st2.bi r1.pImpl).1 hsend with
      ⟨hP, i, q, hq, hne⟩ | ⟨hI, i, q, hq, hne⟩ | ⟨hD, i, q, hq, hne⟩
    · obtain ⟨hi, p, _, rfl⟩ := key i q hq
      rw [hflags.1] at hP
      simp only [hP, if_true] at hne
      exact refl_false _ _ ((hsame i hi).1 hP) ((hnan i hi).1 hP) hne
    · obtain ⟨hi, p, _, rfl⟩ := key i q hq
      rw [hflags.2.1] at hI
      simp only [hI, if_true] at hne
      exact refl_false _ _ ((hsame i hi).2.1 hI) ((hnan i hi).2.1 hI) hne
    · obtain ⟨hi, p, _, rfl⟩ := key i q hq
      rw [hflags.2.2] at hD
      simp only [hD, if_true] at hne
      exact refl_false _ _ ((hsame i hi).2.2 hD) ((hnan i hi).2.2 hD) hne

/-- C9: for a successfully initialized block and an `output` step with valid input
signals, after the step the applied record of every joint is the previous one with the
gain of each enabled channel replaced by that step's input value for the joint (the gains
of disabled channels and all other fields are unchanged); the default PID record, the
default and applied torque records, the control type and the mask flags are unchanged;
and every `setPids` call of the step passes the selected control type and the whole
updated applied record. -/
theorem output_updates_applied_gains {V : Type} [DecidableEq V] [HasNaN V] [Zero V]
    (ri : RobotInterface) (s : impl V) (dev : Device V) (st : Step V)
    (hinit : Initialized ri s dev) (hv : ValidInputs s st) :
    ∃ r, output st.g st.bi ri st.beh dev s = some r
      ∧ r.pImpl.pidValuesApplied.length = ri.dofs
      ∧ (∀ i, i < ri.dofs → ∃ p, s.pidValuesApplied[i]? = some p
          ∧ r.pImpl.pidValuesApplied[i]? = some
            { p with
              kp := if s.setP then st.pGainsSignal.get i else p.kp,
              ki := if s.setI then st.iGainsSignal.get i else p.ki,
              kd := if s.setD then st.dGainsSignal.get i else p.kd })
      ∧ r.pImpl.pidValuesDefault = s.pidValuesDefault
      ∧ r.pImpl.motorParamsDefault = s.motorParamsDefault
      ∧ r.pImpl.motorParamsApplied = s.motorParamsApplied
      ∧ r.pImpl.controlType = s.controlType
      ∧ r.pImpl.setP = s.setP ∧ r.pImpl.setI = s.setI ∧ r.pImpl.setD = s.setD
      ∧ r.pImpl.setKTau = s.setKTau ∧ r.pImpl.setBemf = s.setBemf
      ∧ (∀ c ∈ r.calls, c.isSetPids = true →
          ∃ ok, c = Call.setPids s.controlType r.pImpl.pidValuesApplied ok) := by
  have hs := initialized_sized ri s dev hinit
  obtain ⟨r, calls1, hr, himpl, hno, hcalls, _⟩ := output_spec st.g st.bi ri st.beh dev s hs
  have hlen : s.pidValuesApplied.length = ri.dofs := hs.2.2.2.1
  refine ⟨r, hr, ?_, ?_, ?_, ?_, ?_, ?_, ?_, ?_, ?_, ?_, ?_, ?_⟩
  · rw [himpl]; simp only [readGains_length, hlen]
  · intro i hi
    refine ⟨s.pidValuesApplied[i], List.getElem?_eq_getElem (by omega), ?_⟩
    rw [himpl]
    simp only [readGains_getElem?, List.getElem?_eq_getElem (show i < s.pidValuesApplied.length by omega)]
    rfl
  all_goals first
    | (rw [himpl]; done)
    | skip
  intro c hc hset
  rw [hcalls] at hc
  rcases List.mem_append.1 hc with hc | hc
  · rw [hno c hc] at hset; cases hset
  · split at hc
    · simp only [List.mem_cons, List.mem_singleton, List.not_mem_nil, or_false] at hc
      rcases hc with rfl | rfl
      · cases hset
      · exact ⟨_, by rw [himpl]⟩
    · cases hc

/-- C7, as amended: in every phase (`initialize`, `output`, `terminate`) and for every
device behaviour, if a `getPids`, `setPids` or `getMotorTorqueParams` call made during the
phase fails, the phase returns failure to the host. -/
theorem failed_device_call_fails_phase {V : Type} [DecidableEq V] [HasNaN V] [Zero V] (phase : Phase)
    (g : Globals) (wb : WBBlock) (bi : BlockInformation V) (ri : RobotInterface)
    (beh : DeviceBehaviour V) (dev : Device V) (s : impl V) (r : Result V) (c : Call V)
    (h : runPhase phase g wb bi ri beh dev s = some r) (hc : c ∈ r.calls)
    (hdev : c.isDeviceCall = true) (hnot : c.isSetMotorTorqueParams = false)
    (hfail : c.ok = false) : r.ret = false := by
  cases hret : r.ret with
  | false => rfl
  | true =>
    exfalso
    have hok : c.ok = true := by
      cases phase with
      | initialisePhase => exact initialise_calls_ok g wb bi ri beh dev s r h hret c hc
      | outputPhase => exact output_calls_ok g bi ri beh dev s r h hret c hc hdev hnot
      | terminatePhase => exact terminate_calls_ok wb ri beh dev s r h hret c hc hdev hnot
    rw [hfail] at hok
    cases hok

/-- C5: for each combination of the flags `SetP`, `SetI`, `SetD`, a successful
`configureSizeAndPorts` declares as many input ports as there are true flags; the port
indices are 0, 1, .. without gap, and they are the indices assigned to the enabled
channels in the order P, I, D; a disabled channel gets no port and its index variable
is left as it was. -/
theorem configureSizeAndPorts_ports {V : Type} (g : Globals) (wb : WBBlock)
    (bi : BlockInformation V) (p : Parameters V) (setP setI setD : Bool)
    (hparse : parseParameters wb bi = some p)
    (hP : p.SetP = some setP) (hI : p.SetI = some setI) (hD : p.SetD = some setD)
    (hret : (configureSizeAndPorts g wb bi).ret = true) :
    ∃ io, (configureSizeAndPorts g wb bi).ioData = some io ∧
      io.input.length = setP.toNat + setI.toNat + setD.toNat ∧
      io.input.map Port.index
        = (List.range (setP.toNat + setI.toNat + setD.toNat)).map Int.ofNat ∧
      io.input.map Port.index
        = (if setP then [(configureSizeAndPorts g wb bi).globals.InputIndex_PGains] else [])
          ++ (if setI then [(configureSizeAndPorts g wb bi).globals.InputIndex_IGains] else [])
          ++ (if setD then [(configureSizeAndPorts g wb bi).globals.InputIndex_DGains] else [])
      ∧ (setP = false →
          (configureSizeAndPorts g wb bi).globals.InputIndex_PGains = g.InputIndex_PGains)
      ∧ (setI = false →
          (configureSizeAndPorts g wb bi).globals.InputIndex_IGains = g.InputIndex_IGains)
      ∧ (setD = false →
          (configureSizeAndPorts g wb bi).globals.InputIndex_DGains = g.InputIndex_DGains) := by
  unfold configureSizeAndPorts at hret ⊢
  simp only [hparse, hP, hI, hD] at hret ⊢
  by_cases hwb : wb.configureSizeAndPorts
  · cases setP <;> cases setI <;> cases setD <;>
      simp [hwb, gainPort] at hret ⊢ <;>
      split <;> simp_all [gainPort, List.range_succ]
  · simp [hwb] at hret

/-- C5, witness: `SetP` and `SetD` enabled, `SetI` disabled. -/
theorem configureSizeAndPorts_ports_witness :
    parseParameters exampleWBBlock (exampleBlockInformation
        (exampleParameters true false true "Position" false false [] [])
        (fun _ => 0) (fun _ => exampleSignal false []))
      = some (exampleParameters true false true "Position" false false [] [])
    ∧ (configureSizeAndPorts Globals.initial exampleWBBlock (exampleBlockInformation
        (exampleParameters true false true "Position" false false [] [])
        (fun _ => 0) (fun _ => exampleSignal false []))).ret = true
    ∧ ∃ io, (configureSizeAndPorts Globals.initial exampleWBBlock (exampleBlockInformation
        (exampleParameters true false true "Position" false false [] [])
        (fun _ => 0) (fun _ => exampleSignal false []))).ioData = some io
      ∧ io.input.length = 2 ∧ io.input.map Port.index = [0, 1] :=
  ⟨rfl, rfl,
    (configureSizeAndPorts_ports Globals.initial exampleWBBlock (exampleBlockInformation
        (exampleParameters true false true "Position" false false [] [])
        (fun _ => 0) (fun _ => exampleSignal false []))
      (exampleParameters true false true "Position" false false [] []) true false true
      rfl rfl rfl rfl rfl).imp (fun _ h => ⟨h.1, h.2.1, h.2.2.1⟩)⟩

/-- C6: when the `KTau` vector has a length other than `dofs`, or the `Bemf` vector has,
or the `ControlType` string is neither `Position` nor `Torque`, `initialize` returns
failure without any call on the robot interface or the device (no interface is acquired,
nothing is read or written) and leaves the device state as it was. -/
theorem initialise_rejects_bad_parameters {V : Type} [Zero V] (g : Globals) (wb : WBBlock)
    (bi : BlockInformation V) (ri : RobotInterface) (beh : DeviceBehaviour V)
    (dev : Device V) (s : impl V) (p : Parameters V)
    (hparse : bi.parseParameters = some p)
    (hbad : (∃ k, p.KTau = some k ∧ k.length ≠ ri.dofs)
      ∨ (∃ b, p.Bemf = some b ∧ b.length ≠ ri.dofs)
      ∨ (∃ c, p.ControlType = some c ∧ c ≠ "Position" ∧ c ≠ "Torque")) :
    ∃ r, initialise g wb bi ri beh dev s = some r ∧ r.ret = false ∧ r.calls = []
      ∧ r.dev = dev := by
  unfold initialise
  split
  · exact ⟨_, rfl, rfl, rfl, rfl⟩
  split
  · exact ⟨_, rfl, rfl, rfl, rfl⟩
  rename_i p' hp'
  have hpp : p' = p := by
    unfold parseParameters at hp'
    split at hp'
    · rw [hparse] at hp'; exact (Option.some.inj hp').symm
    · cases hp'
  subst hpp
  repeat' split
  all_goals first
    | exact ⟨_, rfl, rfl, rfl, rfl⟩
    | (exfalso
       rcases hbad with ⟨k, hk', hne⟩ | ⟨b, hb', hne⟩ | ⟨c, hc', h1, h2⟩
       · simp_all
       · simp_all
       · simp_all [resolveControlType])

/-- C6, witness: one joint and an empty `KTau` vector. -/
theorem initialise_rejects_bad_parameters_witness :
    shortKTauBlock.parseParameters
      = some (exampleParameters false false false "Position" true false [] [0])
    ∧ ∃ r, initialise Globals.initial exampleWBBlock shortKTauBlock (exampleRobot 1)
        (exampleBehaviour true true true true) exampleDevice SetMotorParameters.new = some r
      ∧ r.ret = false ∧ r.calls = [] ∧ r.dev = exampleDevice :=
  ⟨rfl, initialise_rejects_bad_parameters Globals.initial exampleWBBlock shortKTauBlock
    (exampleRobot 1) (exampleBehaviour true true true true) exampleDevice
    SetMotorParameters.new (exampleParameters false false false "Position" true false [] [0])
    rfl (Or.inl ⟨[], rfl, by decide⟩)⟩

/-- C10: the port indices are shared by all block instances.  A first instance with only
`SetI` enabled is configured and gets its port, the only one it has, at index 0 for the
integral gains; configuring a second instance with `SetP` and `SetI` enabled moves the
index of the integral gains to 1.  From then on the first instance reads index 1: its
`initialize`, which succeeded before, now fails the width check, and its `output` applies
the value found at index 1 (here 0) and no longer the gain 7 of its own port. -/
theorem port_indices_shared_across_instances :
    (configureSizeAndPorts Globals.initial exampleWBBlock firstInstance).ret = true
    ∧ (configureSizeAndPorts Globals.initial exampleWBBlock firstInstance).ioData.map
        (fun io => io.input.map Port.index) = some [0]
    ∧ globalsAfterFirst.InputIndex_IGains = 0
    ∧ (configureSizeAndPorts globalsAfterFirst exampleWBBlock secondInstance).ret = true
    ∧ globalsAfterSecond.InputIndex_IGains = 1
    ∧ firstInstanceInitialise globalsAfterFirst = some true
    ∧ firstInstanceInitialise globalsAfterSecond = some false
    ∧ firstInstanceGains globalsAfterFirst = some [7]
    ∧ firstInstanceGains globalsAfterSecond = some [0] := by
  decide

/-- C1, the code at the failing input: the scenario block (two joints) is constructed and
initialized successfully; the first-run flag is then false, and the first `output` call,
which succeeds, makes no `setMotorTorqueParams` call at all. -/
theorem first_output_writes_no_torque_parameters :
    initialise scenarioGlobals exampleWBBlock (scenarioBlock []) (exampleRobot 2)
        (exampleBehaviour true true true true) exampleDevice SetMotorParameters.new
      = some scenarioStart
    ∧ scenarioStart.ret = true
    ∧ scenarioStart.pImpl.firstRun = false
    ∧ (output scenarioGlobals (scenarioBlock [1, 2]) (exampleRobot 2)
        (exampleBehaviour true true true true) scenarioStart.dev scenarioStart.pImpl).map
        (fun r => (r.ret, r.calls.filter Call.isSetMotorTorqueParams)) = some (true, []) :=
  ⟨rfl, rfl, rfl, by decide⟩

/-- C8, the code at the failing input: with one joint and an empty `KTau` vector,
`initialize` fails at the length check and leaves the default PID record and the default
torque record empty; the `terminate` call that follows accesses them out of range. -/
theorem terminate_after_failed_initialise_out_of_range :
    initialise Globals.initial exampleWBBlock shortKTauBlock (exampleRobot 1)
        (exampleBehaviour true true true true) exampleDevice SetMotorParameters.new
      = some shortKTauStart
    ∧ shortKTauStart.ret = false
    ∧ shortKTauStart.pImpl.pidValuesDefault = []
    ∧ shortKTauStart.pImpl.motorParamsDefault = []
    ∧ terminate exampleWBBlock (exampleRobot 1) (exampleBehaviour true true true true)
        shortKTauStart.dev shortKTauStart.pImpl = none :=
  ⟨rfl, rfl, rfl, rfl, rfl⟩

/-- C7, counterexample: after a successful `initialize` of the scenario block, `terminate`
runs against a device whose `setMotorTorqueParams` fails; the call for joint 0 is made
and fails, and `terminate` returns true all the same. -/
theorem terminate_succeeds_despite_failed_torque_write :
    scenarioStart.ret = true
    ∧ (terminate exampleWBBlock (exampleRobot 2) (exampleBehaviour true true true false)
        scenarioStart.dev scenarioStart.pImpl).map
        (fun r => (r.ret, r.calls.filter (fun c => c.isDeviceCall && !c.ok)))
      = some (true, [Call.setMotorTorqueParams 0 ⟨40, 1, 50, 1⟩ false]) := by
  decide

/-- C7 as amended, witness: `getPids` fails during `initialize` of the scenario block. -/
theorem failed_device_call_fails_phase_witness :
    runPhase Phase.initialisePhase scenarioGlobals exampleWBBlock (scenarioBlock [])
        (exampleRobot 2) (exampleBehaviour false true true true) exampleDevice
        SetMotorParameters.new = some failedGetPidsStart
    ∧ Call.getPids VOCAB_PIDTYPE_POSITION false ∈ failedGetPidsStart.calls
    ∧ (Call.getPids VOCAB_PIDTYPE_POSITION false : Call Int).isDeviceCall = true
    ∧ (Call.getPids VOCAB_PIDTYPE_POSITION false : Call Int).isSetMotorTorqueParams = false
    ∧ (Call.getPids VOCAB_PIDTYPE_POSITION false : Call Int).ok = false
    ∧ failedGetPidsStart.ret = false :=
  ⟨rfl, by decide, rfl, rfl, rfl,
    failed_device_call_fails_phase Phase.initialisePhase scenarioGlobals exampleWBBlock
      (scenarioBlock []) (exampleRobot 2) (exampleBehaviour false true true true)
      exampleDevice SetMotorParameters.new failedGetPidsStart
      (Call.getPids VOCAB_PIDTYPE_POSITION false) rfl (by decide) rfl rfl rfl⟩

/-- C4, witness: two joints, `SetKTau` and `SetBemf` enabled with `KTau = [7, 8]` and
`Bemf = [5, 6]`. -/
theorem initialise_applied_records_witness :
    initialise Globals.initial exampleWBBlock maskedBlock (exampleRobot 2)
        (exampleBehaviour true true true true) exampleDevice SetMotorParameters.new
      = some maskedStart
    ∧ maskedStart.ret = true
    ∧ maskedStart.pImpl.pidValuesApplied = maskedStart.pImpl.pidValuesDefault
    ∧ maskedStart.pImpl.pidValuesDefault.length = 2
    ∧ maskedStart.pImpl.motorParamsDefault.length = 2
    ∧ maskedStart.pImpl.motorParamsApplied.length = 2
    ∧ maskedStart.pImpl.motorParamsDefault = [⟨40, 1, 50, 1⟩, ⟨41, 1, 51, 1⟩]
    ∧ maskedStart.pImpl.motorParamsApplied = [⟨5, 1, 7, 1⟩, ⟨6, 1, 8, 1⟩] :=
  have h := initialise_applied_records Globals.initial exampleWBBlock maskedBlock
    (exampleRobot 2) (exampleBehaviour true true true true) exampleDevice
    SetMotorParameters.new maskedStart rfl rfl
  ⟨rfl, rfl, h.1, h.2.1, h.2.2.2.1, h.2.2.2.2.1, by decide, by decide⟩

/-- C3, witness: the scenario block is initialized, runs the steps with the proportional
gains `[1, 2]` and `[5, 2]`, and is terminated against a device whose writes succeed. -/
theorem terminate_restores_defaults_witness :
    initialise scenarioGlobals exampleWBBlock (scenarioBlock []) (exampleRobot 2)
        (exampleBehaviour true true true true) exampleDevice SetMotorParameters.new
      = some scenarioStart
    ∧ scenarioStart.ret = true
    ∧ (∀ t l, (exampleBehaviour true true true true).setPids t l = true)
    ∧ (∀ m p, (exampleBehaviour true true true true).setMotorTorqueParams m p = true)
    ∧ ∃ s dev rT,
        runOutputs (exampleRobot 2) [scenarioStep [1, 2], scenarioStep [5, 2]]
          scenarioStart.pImpl scenarioStart.dev = some (s, dev)
        ∧ terminate exampleWBBlock (exampleRobot 2) (exampleBehaviour true true true true)
            dev s = some rT
        ∧ ∀ j, j < (exampleRobot 2).dofs →
            scenarioStart.pImpl.pidValuesDefault[j]?
              = some (rT.dev.pids scenarioStart.pImpl.controlType j)
            ∧ scenarioStart.pImpl.motorParamsDefault[j]?
              = some (rT.dev.motorTorqueParams j)
            ∧ rT.dev.pids scenarioStart.pImpl.controlType j
              = exampleDevice.pids scenarioStart.pImpl.controlType j
            ∧ rT.dev.motorTorqueParams j = exampleDevice.motorTorqueParams j :=
  ⟨rfl, rfl, fun _ _ => rfl, fun _ _ => rfl,
    terminate_restores_defaults scenarioGlobals exampleWBBlock (scenarioBlock [])
      (exampleRobot 2) (exampleBehaviour true true true true) exampleDevice
      SetMotorParameters.new scenarioStart [scenarioStep [1, 2], scenarioStep [5, 2]]
      exampleWBBlock (exampleBehaviour true true true true) rfl rfl
      (fun _ _ => rfl) (fun _ _ => rfl)⟩

/-- C2 as amended, witness: the scenario of two joints with only `SetP` enabled, defaults
`[10, 11]`.  The step with the gains `[1, 2]` makes one `setPids` call, the next step with
the same gains makes none, and a third step with `[5, 2]` makes one again. -/
theorem output_pid_write_iff_changed_witness :
    Initialized (exampleRobot 2) scenarioStart.pImpl scenarioStart.dev
    ∧ ValidInputs scenarioStart.pImpl (scenarioStep [1, 2])
    ∧ GainsDiffer scenarioStart.pImpl (scenarioStep [1, 2])
    ∧ SameInputs (exampleRobot 2) scenarioStart.pImpl (scenarioStep [1, 2])
        (scenarioStep [1, 2])
    ∧ NoNaNInputs (exampleRobot 2) scenarioStart.pImpl (scenarioStep [1, 2])
    ∧ (∃ r1 r2,
        output (scenarioStep [1, 2]).g (scenarioStep [1, 2]).bi (exampleRobot 2)
          (scenarioStep [1, 2]).beh scenarioStart.dev scenarioStart.pImpl = some r1
        ∧ output (scenarioStep [1, 2]).g (scenarioStep [1, 2]).bi (exampleRobot 2)
          (scenarioStep [1, 2]).beh r1.dev r1.pImpl = some r2
        ∧ pidWrites r1.calls = 1 ∧ pidWrites r2.calls = 0)
    ∧ scenarioWrites [] [1, 2] = some 1
    ∧ scenarioWrites [[1, 2]] [1, 2] = some 0
    ∧ scenarioWrites [[1, 2], [1, 2]] [5, 2] = some 1 :=
  have hdiff : GainsDiffer scenarioStart.pImpl (scenarioStep [1, 2]) :=
    Or.inl ⟨rfl, 0, ⟨10, 20, 30, 1, 2, 3, 4, 5, 6, 7⟩, rfl, by decide⟩
  have hsame : SameInputs (exampleRobot 2) scenarioStart.pImpl (scenarioStep [1, 2])
      (scenarioStep [1, 2]) := fun _ _ => ⟨fun _ => rfl, fun _ => rfl, fun _ => rfl⟩
  have hnan : NoNaNInputs (exampleRobot 2) scenarioStart.pImpl (scenarioStep [1, 2]) :=
    fun _ _ => ⟨fun _ => rfl, fun _ => rfl, fun _ => rfl⟩
  ⟨scenarioStart_initialized, scenarioStep_valid [1, 2], hdiff, hsame, hnan,
    (output_pid_write_iff_changed (exampleRobot 2) scenarioStart.pImpl scenarioStart.dev
      (scenarioStep [1, 2]) (scenarioStep [1, 2]) scenarioStart_initialized
      (scenarioStep_valid [1, 2]) (scenarioStep_valid [1, 2])).imp
      (fun _ h => h.imp (fun _ h => ⟨h.1, h.2.1, h.2.2.1 hdiff, h.2.2.2.2 hsame hnan⟩)),
    by decide, by decide, by decide⟩

/-- C2, counterexample: the scenario of two joints with only `SetP` enabled, over doubles
with a NaN.  The block is initialized successfully; two consecutive `output` steps carry
the same valid proportional gains `[NaN, 2]`; the second step makes a `setPids` call
again, as the first did. -/
theorem nan_gain_written_on_every_step :
    Initialized (exampleRobot 2) nanStart.pImpl nanStart.dev
    ∧ ValidInputs nanStart.pImpl (nanStep [Gain.nan, Gain.num 2])
    ∧ SameInputs (exampleRobot 2) nanStart.pImpl (nanStep [Gain.nan, Gain.num 2])
        (nanStep [Gain.nan, Gain.num 2])
    ∧ output (nanStep [Gain.nan, Gain.num 2]).g (nanStep [Gain.nan, Gain.num 2]).bi
        (exampleRobot 2) (nanStep [Gain.nan, Gain.num 2]).beh nanStart.dev nanStart.pImpl
      = some nanFirstStep
    ∧ output (nanStep [Gain.nan, Gain.num 2]).g (nanStep [Gain.nan, Gain.num 2]).bi
        (exampleRobot 2) (nanStep [Gain.nan, Gain.num 2]).beh nanFirstStep.dev
        nanFirstStep.pImpl
      = some nanSecondStep
    ∧ pidWrites nanFirstStep.calls = 1
    ∧ pidWrites nanSecondStep.calls = 1
    ∧ ¬ (pidWrites nanSecondStep.calls = 0) :=
  ⟨⟨scenarioGlobals, exampleWBBlock, nanBlock [], nanBehaviour, nanDevice,
      SetMotorParameters.new, nanStart, [], rfl, rfl, rfl⟩,
    ⟨fun _ => rfl, fun h => (by cases h), fun h => (by cases h)⟩,
    fun _ _ => ⟨fun _ => rfl, fun _ => rfl, fun _ => rfl⟩,
    rfl, rfl, by decide, by decide, by decide⟩

/-- C9, witness: the scenario step with the proportional gains `[5, 2]`. -/
theorem output_updates_applied_gains_witness :
    Initialized (exampleRobot 2) scenarioStart.pImpl scenarioStart.dev
    ∧ ValidInputs scenarioStart.pImpl (scenarioStep [5, 2])
    ∧ ∃ r, output (scenarioStep [5, 2]).g (scenarioStep [5, 2]).bi (exampleRobot 2)
          (scenarioStep [5, 2]).beh scenarioStart.dev scenarioStart.pImpl = some r
      ∧ r.pImpl.pidValuesApplied.length = 2
      ∧ r.pImpl.pidValuesDefault = scenarioStart.pImpl.pidValuesDefault
      ∧ r.pImpl.controlType = scenarioStart.pImpl.controlType
      ∧ (∀ c ∈ r.calls, c.isSetPids = true →
          ∃ ok, c = Call.setPids scenarioStart.pImpl.controlType r.pImpl.pidValuesApplied ok) :=
  ⟨scenarioStart_initialized, scenarioStep_valid [5, 2],
    (output_updates_applied_gains (exampleRobot 2) scenarioStart.pImpl scenarioStart.dev
      (scenarioStep [5, 2]) scenarioStart_initialized (scenarioStep_valid [5, 2])).imp
      (fun _ h => ⟨h.1, h.2.1, h.2.2.2.1, h.2.2.2.2.2.2.1, h.2.2.2.2.2.2.2.2.2.2.2.2⟩)⟩

end SetMotorParameters

end wbt
